import Mathlib

/-!
Verification of the MediMeal recommendation/prediction backend.

This file is a shallow embedding, in Lean 4, of the parts of the MediMeal
repository that its specification makes claims about:

* the TF-IDF + cosine-similarity recommenders
  (`Backend/ml/drug_recommender.py` and `ml_service.py`),
* the k-nearest-neighbour medication search and its HTTP routes
  (`Backend/main.py`, class `ModelTrainer`),
* the Medicare spending predictor (`Backend/ml/medicare_drug_analysis.py`)
  and its `/api/predict-spending` route,
* the nutrition predictor (`Backend/nutritional_model.py`) and its
  `/health/predict` route.

Python floats are modelled as real numbers; NumPy / scikit-learn library
calls are modelled by their documented mathematical semantics
(`TfidfVectorizer` with the default settings used in the sources,
`cosine_similarity`, `NearestNeighbors(metric=cosine).kneighbors`,
`np.argsort`).  Python's `sorted` is a stable sort by language guarantee;
`np.argsort` with its default kind is stable only where NumPy runs its
insertion sort (arrays of at most 16 elements), and tie-order statements
below are restricted accordingly.  pandas `Series.str.contains` compiles
its argument as a regular expression (`regex=True` is the default); the
subset of patterns exercised by the claims (literal characters and the
metacharacter `.`) is modelled exactly, and patterns outside that subset
are not constrained by any theorem.
Fallible Python code is modelled with `Option` / `Except` over an explicit
`PyErr` type; fitted estimators whose internals are irrelevant to the
claims (random forests, standard scalers) are opaque function parameters.
-/

namespace MediMeal

/-- Python exception classes that the modelled code can raise. -/
inductive PyErr where
  | indexError
  | valueError (msg : String)
  | keyError (key : String)
  | attributeError (attr : String)
  | reError
deriving DecidableEq

/-! ## Tokenization (sklearn `TfidfVectorizer`)

sklearn's default analyzer lowercases the input and extracts maximal runs
of word characters of length at least 2 (token pattern `\w\w+`). -/

/-- A word character in the sense of the `\w` regex class. -/
def isWordChar (c : Char) : Bool := c.isAlphanum || c = '_'

/-- Split a character list into maximal runs of word characters.
The second argument accumulates the current (reversed) run. -/
def wordRuns : List Char → List Char → List (List Char)
  | [], acc => if acc.isEmpty then [] else [acc.reverse]
  | c :: cs, acc =>
    if isWordChar c then wordRuns cs (c :: acc)
    else if acc.isEmpty then wordRuns cs acc
    else acc.reverse :: wordRuns cs []

/-- Lowercase a character list (ASCII, as in `str.lower` for the data at hand). -/
def lowerChars (cs : List Char) : List Char := cs.map Char.toLower

/-- sklearn tokenization: lowercase, then keep maximal word-character runs of
length at least 2. -/
def tokenize (s : String) : List String :=
  ((wordRuns (lowerChars s.data) []).filter (fun t => 2 ≤ t.length)).map
    (fun t => String.mk t)

/-- sklearn's built-in English stop-word list (`stop_words=english`), the
frozen Glasgow IR list shipped with scikit-learn. -/
def englishStopWords : List String :=
  ["a", "about", "above", "across", "after", "afterwards", "again", "against",
   "all", "almost", "alone", "along", "already", "also", "although", "always",
   "am", "among", "amongst", "amoungst", "amount", "an", "and", "another",
   "any", "anyhow", "anyone", "anything", "anyway", "anywhere", "are",
   "around", "as", "at", "back", "be", "became", "because", "become",
   "becomes", "becoming", "been", "before", "beforehand", "behind", "being",
   "below", "beside", "besides", "between", "beyond", "bill", "both",
   "bottom", "but", "by", "call", "can", "cannot", "cant", "co", "con",
   "could", "couldnt", "cry", "de", "describe", "detail", "do", "done",
   "down", "due", "during", "each", "eg", "eight", "either", "eleven",
   "else", "elsewhere", "empty", "enough", "etc", "even", "ever", "every",
   "everyone", "everything", "everywhere", "except", "few", "fifteen",
   "fifty", "fill", "find", "fire", "first", "five", "for", "former",
   "formerly", "forty", "found", "four", "from", "front", "full", "further",
   "get", "give", "go", "had", "has", "hasnt", "have", "he", "hence", "her",
   "here", "hereafter", "hereby", "herein", "hereupon", "hers", "herself",
   "him", "himself", "his", "how", "however", "hundred", "i", "ie", "if",
   "in", "inc", "indeed", "interest", "into", "is", "it", "its", "itself",
   "keep", "last", "latter", "latterly", "least", "less", "ltd", "made",
   "many", "may", "me", "meanwhile", "might", "mill", "mine", "more",
   "moreover", "most", "mostly", "move", "much", "must", "my", "myself",
   "name", "namely", "neither", "never", "nevertheless", "next", "nine",
   "no", "nobody", "none", "noone", "nor", "not", "nothing", "now",
   "nowhere", "of", "off", "often", "on", "once", "one", "only", "onto",
   "or", "other", "others", "otherwise", "our", "ours", "ourselves", "out",
   "over", "own", "part", "per", "perhaps", "please", "put", "rather", "re",
   "same", "see", "seem", "seemed", "seeming", "seems", "serious", "several",
   "she", "should", "show", "side", "since", "sincere", "six", "sixty",
   "so", "some", "somehow", "someone", "something", "sometime", "sometimes",
   "somewhere", "still", "such", "system", "take", "ten", "than", "that",
   "the", "their", "them", "themselves", "then", "thence", "there",
   "thereafter", "thereby", "therefore", "therein", "thereupon", "these",
   "they", "thick", "thin", "third", "this", "those", "though", "three",
   "through", "throughout", "thru", "thus", "to", "together", "too", "top",
   "toward", "towards", "twelve", "twenty", "two", "un", "under", "until",
   "up", "upon", "us", "very", "via", "was", "we", "well", "were", "what",
   "whatever", "when", "whence", "whenever", "where", "whereafter",
   "whereas", "whereby", "wherein", "whereupon", "wherever", "whether",
   "which", "while", "whither", "who", "whoever", "whole", "whom", "whose",
   "why", "will", "with", "within", "without", "would", "yet", "you",
   "your", "yours", "yourself", "yourselves"]

/-- Tokenization as configured with `stop_words=english`
(`TfidfVectorizer(stop_words=english)` in `drug_recommender.py` and
`ml_service.py`). -/
def tokenizeEnglish (s : String) : List String :=
  (tokenize s).filter (fun t => !(englishStopWords.contains t))

/-! ## TF-IDF weighting and cosine similarity

sklearn defaults used by all three vectorizers in the sources:
`smooth_idf=True`, `sublinear_tf=False`, `norm=l2`, so a document `d` of a
corpus of `n` documents gets, for term `t`,
raw weight `count(t, d) * (ln((1 + n) / (1 + df(t))) + 1)`,
and each row is then L2-normalized.  `cosine_similarity(X, Y)` is
`<x, y> / (|x| * |y|)` (with zero rows giving similarity 0, as
`sklearn.preprocessing.normalize` keeps zero rows zero). -/

/-- Term frequency: the number of occurrences of `t` in document `d`. -/
def termCount (t : String) (d : List String) : ℕ := d.count t

/-- Document frequency of term `t` over the corpus. -/
def docFreq (docs : List (List String)) (t : String) : ℕ :=
  docs.countP (fun d => d.contains t)

/-- The fitted vocabulary: every distinct term of the corpus. -/
def vocab (docs : List (List String)) : List String := docs.flatten.dedup

/-- Smoothed inverse document frequency (sklearn `smooth_idf=True`). -/
noncomputable def idf (docs : List (List String)) (t : String) : ℝ :=
  Real.log ((1 + docs.length) / (1 + docFreq docs t)) + 1

/-- Raw (unnormalized) TF-IDF weight of term `t` for document `d`. -/
noncomputable def tfidfRaw (docs : List (List String)) (d : List String)
    (t : String) : ℝ :=
  (termCount t d : ℝ) * idf docs t

/-- Dot product of two term-weight vectors over the vocabulary `V`. -/
noncomputable def dotV (V : List String) (f g : String → ℝ) : ℝ :=
  (V.map (fun t => f t * g t)).sum

/-- Euclidean norm of a term-weight vector over `V`. -/
noncomputable def l2norm (V : List String) (f : String → ℝ) : ℝ :=
  Real.sqrt (dotV V f f)

/-- The L2-normalized TF-IDF row of document `d` (sklearn `norm=l2`;
a zero row stays zero because in `ℝ` division by zero yields zero, matching
`sklearn.preprocessing.normalize`). -/
noncomputable def tfidfVec (docs : List (List String)) (d : List String) :
    String → ℝ :=
  fun t => tfidfRaw docs d t / l2norm (vocab docs) (tfidfRaw docs d)

/-- `sklearn.metrics.pairwise.cosine_similarity` of two rows. -/
noncomputable def cosineSim (V : List String) (f g : String → ℝ) : ℝ :=
  dotV V f g / (l2norm V f * l2norm V g)

/-- Entry `(i, j)` of the corpus cosine-similarity matrix built from the
fitted TF-IDF matrix (`cosine_similarity(tfidf_matrix)`). -/
noncomputable def cosineSimMatrix (docs : List (List String)) (i j : ℕ) : ℝ :=
  cosineSim (vocab docs) (tfidfVec docs (docs.getD i []))
    (tfidfVec docs (docs.getD j []))

/-! ## Stable sorting of (index, score) pairs

Python's `sorted(..., key=lambda x: x[1], reverse=True)` is a stable
descending sort; `np.argsort` on the small score arrays relevant here is a
stable ascending argsort.  Both are modelled with `List.insertionSort`,
which is stable. -/

/-- Comparison for Python `sorted(key=score, reverse=True)`: `a` may stay
before `b` exactly when `b`'s score does not exceed `a`'s (so ties keep the
earlier element first). -/
def scoreGE (a b : ℕ × ℝ) : Prop := b.2 ≤ a.2

/-- Comparison for a stable ascending argsort. -/
def scoreLE (a b : ℕ × ℝ) : Prop := a.2 ≤ b.2

noncomputable instance : DecidableRel scoreGE :=
  fun a b => inferInstanceAs (Decidable (b.2 ≤ a.2))

noncomputable instance : DecidableRel scoreLE :=
  fun a b => inferInstanceAs (Decidable (a.2 ≤ b.2))

/-- Strict descending-with-stable-ties order: larger score first and, on
equal scores, the smaller original index first. -/
def keyDesc (a b : ℕ × ℝ) : Prop := b.2 < a.2 ∨ (a.2 = b.2 ∧ a.1 < b.1)

/-- Strict ascending-with-stable-ties order. -/
def keyAsc (a b : ℕ × ℝ) : Prop := a.2 < b.2 ∨ (a.2 = b.2 ∧ a.1 < b.1)

/-- First index in a list satisfying a predicate (pandas
`frame[mask].index[0]`, or `.index[0]` of a filtered frame). -/
def findFirst (p : α → Bool) : List α → Option ℕ
  | [] => none
  | x :: xs =>
    if p x then some 0 else (findFirst p xs).map (fun i => i + 1)

/-! ## `DrugRecommender` (`Backend/ml/drug_recommender.py`)

The constructor fits `TfidfVectorizer(stop_words=english)` on the
`side_effects` column and precomputes `cosine_similarity(tfidf_matrix)`.
`get_recommendations` looks the drug up by exact `drug_name` equality
(`df[df[drug_name] == drug_name].index[0]`, which raises `IndexError` on an
empty selection), enumerates that row of the similarity matrix, sorts by
score with Python `sorted(..., reverse=True)` (stable), slices `[1:n+1]`
and returns the `drug_name`, `medical_condition` and `rating` columns of
the selected rows. -/

/-- A row of the preprocessed drugs dataframe (`preprocess_drug_data`),
restricted to the columns `DrugRecommender` reads. -/
structure DrugRow where
  drug_name : String
  medical_condition : String
  side_effects : String
  rating : ℚ
deriving Inhabited, DecidableEq

/-- The documents the drug vectorizer is fitted on. -/
def drugDocs (df : List DrugRow) : List (List String) :=
  df.map (fun r => tokenizeEnglish r.side_effects)

/-- `list(enumerate(self.cosine_sim[idx]))`. -/
noncomputable def drugSimRow (df : List DrugRow) (idx : ℕ) : List (ℕ × ℝ) :=
  (List.range df.length).map (fun j => (j, cosineSimMatrix (drugDocs df) idx j))

/-- `sorted(sim_scores, key=lambda x: x[1], reverse=True)`. -/
noncomputable def drugSortedScores (df : List DrugRow) (idx : ℕ) :
    List (ℕ × ℝ) :=
  List.insertionSort scoreGE (drugSimRow df idx)

/-- `self.df[self.df[drug_name] == drug_name].index[0]` — exact string
equality; `none` models the `IndexError` raised when nothing matches. -/
def findDrugIdx (df : List DrugRow) (name : String) : Option ℕ :=
  findFirst (fun r => r.drug_name == name) df

/-- `sim_scores[1:n_recommendations+1]`. -/
noncomputable def recPairs (df : List DrugRow) (idx n : ℕ) : List (ℕ × ℝ) :=
  ((drugSortedScores df idx).drop 1).take n

/-- `DrugRecommender.get_recommendations`.  The result rows are projected to
the three returned columns. -/
noncomputable def get_recommendations (df : List DrugRow) (drug_name : String)
    (n : ℕ) : Except PyErr (List (String × String × ℚ)) :=
  match findDrugIdx df drug_name with
  | none => .error .indexError
  | some idx =>
    .ok ((recPairs df idx n).map (fun p =>
      ((df.getD p.1 default).drug_name,
        (df.getD p.1 default).medical_condition,
        (df.getD p.1 default).rating)))

/-! ## `MedicineRecommender` (`ml_service.py`)

The constructor concatenates name/class/use columns into
`combined_features` and fits `TfidfVectorizer(stop_words=english)`.
`get_similar_medicines` selects rows whose `name` matches the query — a
case-insensitive REGEX search, since `str.contains` defaults to
`regex=True` — takes the first match, computes that row of cosine
similarities, ranks by `argsort()[::-1][1:n+1]` and returns records whose
`similarity_score` went through `clean_float`. -/

/-- A row of `medicines_dataset.csv`, restricted to the columns
`get_similar_medicines` reads. -/
structure MedRow where
  name : String
  chemicalClass : String
  therapeuticClass : String
  actionClass : String
  use0 : String
  use1 : String
  use2 : String
deriving Inhabited, DecidableEq

/-- `combined_features`: the space-joined concatenation built in
`MedicineRecommender.__init__`. -/
def combinedFeatures (r : MedRow) : String :=
  r.name ++ " " ++ r.chemicalClass ++ " " ++ r.therapeuticClass ++ " " ++
    r.actionClass ++ " " ++ r.use0 ++ " " ++ r.use1 ++ " " ++ r.use2

/-- The documents the medicine vectorizer is fitted on. -/
def medDocs (df : List MedRow) : List (List String) :=
  df.map (fun r => tokenizeEnglish (combinedFeatures r))

/-- Is `needle` a leading segment of `hay`? -/
def leadMatch : List Char → List Char → Bool
  | [], _ => true
  | _ :: _, [] => false
  | c :: cs, h :: hs => c == h && leadMatch cs hs

/-- Does `needle` occur contiguously inside `hay`? -/
def substrMatch (needle : List Char) : List Char → Bool
  | [] => leadMatch needle []
  | h :: hs => leadMatch needle (h :: hs) || substrMatch needle hs

/-- Literal case-insensitive substring containment.  This is NOT the
program's matcher (pandas treats the query as a regular expression); it is
used to state what a literal-substring policy would have matched, and it
coincides with the regex search for metacharacter-free queries
(`regexSearch_literal`). -/
def containsCI (hay needle : String) : Bool :=
  substrMatch (lowerChars needle.data) (lowerChars hay.data)

/-- The special characters of Python `re` (outside character classes). -/
def regexSpecials : List Char :=
  ['.', '^', '$', '*', '+', '?', '\x7b', '\x7d', '[', ']', '\\', '|',
   '(', ')']

/-- A token of the modelled regex subset: a literal character, or the
metacharacter `.` (which matches any character except a newline). -/
inductive RegexToken where
  | literal (c : Char)
  | anyChar
deriving DecidableEq

/-- Parse a pattern into the modelled regex subset: `.` becomes `anyChar`,
plain characters become literals, and any other regex metacharacter puts
the pattern outside the modelled subset (`none`).  A `none` pattern is
treated below as matching nothing; for invalid regexes such as an
unterminated `(` this is exactly Python, where `re.error` propagates to
the caller and the blanket `except` of `get_similar_medicines` returns
`[]`.  Valid patterns that use unsupported features (quantifiers, anchors,
classes, alternation) are outside the model, and no theorem below
constrains the behaviour on them. -/
def parsePattern : List Char → Option (List RegexToken)
  | [] => some []
  | c :: cs =>
    if c = '.' then (parsePattern cs).map (fun ts => RegexToken.anyChar :: ts)
    else if regexSpecials.contains c then none
    else (parsePattern cs).map (fun ts => RegexToken.literal c :: ts)

/-- Does the token sequence match a prefix of `hay`?  Each token consumes
exactly one character; `.` matches anything except a newline. -/
def tokensMatchAt : List RegexToken → List Char → Bool
  | [], _ => true
  | _ :: _, [] => false
  | .literal c :: ts, h :: hs => c == h && tokensMatchAt ts hs
  | .anyChar :: ts, h :: hs => !(h == '\n') && tokensMatchAt ts hs

/-- `re.search`: does the token sequence match at some position of the
text? -/
def regexSearch (ts : List RegexToken) : List Char → Bool
  | [] => tokensMatchAt ts []
  | h :: hs => tokensMatchAt ts (h :: hs) || regexSearch ts hs

/-- Is the query free of every regex metacharacter (checked on the
lowercased text)?  For such queries the regex search is literal substring
containment. -/
def isLiteralPattern (q : String) : Bool :=
  (lowerChars q.data).all (fun c => !(regexSpecials.contains c))

/-- The record shape returned by `get_similar_medicines`. -/
structure MedRec where
  name : String
  chemical_class : String
  therapeutic_class : String
  action_class : String
  uses : List String
  similarity_score : ℝ
deriving Inhabited

/-- `MedicineRecommender.clean_float`: clamp to the JSON-safe range
`[-1e300, 1e300]`.  (The `pd.isna` / `np.isinf` branch maps NaN and
infinities to `0.0`; those values do not exist in the real-number model.) -/
noncomputable def clean_float (v : ℝ) : ℝ :=
  min (max v (-((10 : ℝ) ^ 300))) ((10 : ℝ) ^ 300)

/-- `self.df[name].str.contains(medicine_name, case=False, na=False)`
followed by `matches.index[0]`: pandas compiles the query as a regular
expression with `re.IGNORECASE` (`regex=True` is the default; case
insensitivity is modelled by lowercasing both sides, exact for ASCII).
The result is the index of the first row whose name the pattern matches
anywhere, `ok none` when no row matches, and `re.error` for patterns
outside the modelled subset. -/
def findMedIdxE (df : List MedRow) (q : String) : Except PyErr (Option ℕ) :=
  match parsePattern (lowerChars q.data) with
  | none => .error .reError
  | some ts =>
    .ok (findFirst (fun r => regexSearch ts (lowerChars r.name.data)) df)

/-- `cosine_similarity(tfidf_matrix[idx:idx+1], tfidf_matrix).flatten()`. -/
noncomputable def medScores (df : List MedRow) (idx : ℕ) : List ℝ :=
  (List.range df.length).map (fun j => cosineSimMatrix (medDocs df) idx j)

/-- `np.argsort` with the default kind.  NumPy's default sort is NOT
stable in general: only for arrays of at most 16 elements does it run its
insertion sort, whose output is the stable ascending argsort modelled
here.  For longer arrays this definition fixes the stable order as a
canonical representative; only properties independent of the order of
tied indices (the ascending order of the sorted values, the result's
length and its membership) are faithful consequences of the model there,
and tie-order theorems below carry an explicit at-most-16-elements
hypothesis. -/
noncomputable def argsortAsc (scores : List ℝ) : List ℕ :=
  (List.insertionSort scoreLE
    ((List.range scores.length).map (fun j => (j, scores.getD j 0)))).map
    Prod.fst

/-- `similarity_scores.argsort()[::-1][1:n_recommendations+1]`. -/
noncomputable def similarIndices (scores : List ℝ) (n : ℕ) : List ℕ :=
  (((argsortAsc scores).reverse).drop 1).take n

/-- `MedicineRecommender.get_similar_medicines`.  The surrounding
`try/except` returns `[]` on any error — in particular on the `re.error`
raised by an invalid query pattern — and the empty-match case also
returns `[]`. -/
noncomputable def get_similar_medicines (df : List MedRow)
    (medicine_name : String) (n : ℕ) : List MedRec :=
  match findMedIdxE df medicine_name with
  | .error _ => []
  | .ok none => []
  | .ok (some idx) =>
    (similarIndices (medScores df idx) n).map (fun j =>
      { name := (df.getD j default).name
        chemical_class := (df.getD j default).chemicalClass
        therapeutic_class := (df.getD j default).therapeuticClass
        action_class := (df.getD j default).actionClass
        uses := [(df.getD j default).use0, (df.getD j default).use1,
          (df.getD j default).use2]
        similarity_score :=
          clean_float ((medScores df idx).getD j 0) })

/-! ## `ModelTrainer` medication search and routes (`Backend/main.py`)

`train_medication_model` fits `TfidfVectorizer(max_features=5000)` (no stop
words) on `drug_name + medical_condition + side_effects` and a
`NearestNeighbors(n_neighbors=5, metric=cosine)` index.  (The 5000-term
vocabulary cap is not modelled; the corpora in the claims have far fewer
distinct terms, so the cap never binds.)  `search_medications` raises
`ValueError` when the `medication` model is absent and catches every
exception itself, returning `[]`. -/

/-- A row of `drugs_side_effects_drugs_com.csv`, restricted to the columns
the search model reads. -/
structure SearchRow where
  drug_name : String
  medical_condition : String
  side_effects : String
deriving Inhabited, DecidableEq

/-- The response shape of the search endpoints (`MedicationDetails`). -/
structure MedicationDetails where
  name : String
  condition : String
  side_effects : List String
  active_ingredients : List String
  form : String
  interactions : List String
  storage : List String
  guidelines : List String
  warnings : List String
deriving DecidableEq

/-- Python `s.split(",")`. -/
def splitCommaAux : List Char → List Char → List String
  | [], acc => [String.mk acc.reverse]
  | c :: cs, acc =>
    if c == ',' then String.mk acc.reverse :: splitCommaAux cs []
    else splitCommaAux cs (c :: acc)

def commaSplit (s : String) : List String := splitCommaAux s.data []

/-- The `MedicationDetails` record built for each hit, with the constant
placeholder fields from `search_medications`. -/
def mkMedicationDetails (r : SearchRow) : MedicationDetails :=
  { name := r.drug_name
    condition := r.medical_condition
    side_effects := commaSplit r.side_effects
    active_ingredients := ["Active ingredient information not available"]
    form := "Tablet"
    interactions := ["Avoid alcohol",
      "Check with your doctor about other medications"]
    storage := ["Store between 68-77°F (20-25°C)", "Keep away from moisture",
      "Keep in original container"]
    guidelines := ["Take as prescribed", "Complete the full course",
      "Take at regular intervals"]
    warnings := ["May cause drowsiness", "Take with food",
      "Keep out of reach of children"] }

/-- The documents the medication-search vectorizer is fitted on (no
stop-word removal for this vectorizer). -/
def searchDocs (df : List SearchRow) : List (List String) :=
  df.map (fun r =>
    tokenize (r.drug_name ++ " " ++ r.medical_condition ++ " " ++
      r.side_effects))

/-- Cosine distances (`1 - cosine similarity`) from the transformed query to
every corpus row; the query is vectorized with the already-fitted
vectorizer (`transform`, not `fit_transform`). -/
noncomputable def cosineDistances (docs : List (List String))
    (q : List String) : List ℝ :=
  (List.range docs.length).map (fun i =>
    1 - cosineSim (vocab docs) (tfidfVec docs q) (tfidfVec docs (docs.getD i [])))

/-- `NearestNeighbors.kneighbors`: the `k` indices of smallest distance,
nearest first; scikit-learn raises `ValueError` when `k` exceeds the number
of fitted samples. -/
noncomputable def kneighborsIndices (dists : List ℝ) (k : ℕ) :
    Except PyErr (List ℕ) :=
  if dists.length < k then
    .error (.valueError "Expected n_neighbors <= n_samples")
  else
    .ok ((argsortAsc dists).take k)

/-- The `ModelTrainer.models` dictionary: `medication` holds the fitted
search model (vectorizer + k-NN index + dataframe) when
`train_medication_model` succeeded, and is absent when it failed. -/
structure ModelTrainer where
  medication : Option (List SearchRow)

/-- `ModelTrainer.search_medications`.  The `except` clause inside the
method swallows both the `ValueError` raised for a missing model and any
scikit-learn error, returning `[]`. -/
noncomputable def search_medications (t : ModelTrainer) (query : String) :
    List MedicationDetails :=
  match t.medication with
  | none => []
  | some df =>
    match kneighborsIndices (cosineDistances (searchDocs df) (tokenize query))
        5 with
    | .error _ => []
    | .ok idxs => idxs.map (fun i => mkMedicationDetails (df.getD i default))

/-- `GET /search/medications`: returns the list as an HTTP 200 body
(`search_medications` never raises, so the route error path is dead). -/
noncomputable def search_medications_route (t : ModelTrainer)
    (query : String) : List MedicationDetails :=
  search_medications t query

/-- `GET /medications/.../alternatives`:
`results[1:] if len(results) > 1 else []`. -/
noncomputable def get_alternatives (t : ModelTrainer)
    (medication_name : String) : List MedicationDetails :=
  let results := search_medications t medication_name
  if 1 < results.length then results.drop 1 else []

/-- Response payload of `GET /api/drug-recommendations/...`. -/
inductive RecResponse where
  | success (recommendations : List (String × String × ℚ))
  | errorResponse (message : String)

/-- `str(e)` for the modelled exceptions. -/
def pyErrMessage : PyErr → String
  | .indexError => "index 0 is out of bounds for axis 0 with size 0"
  | .valueError m => m
  | .keyError k => k
  | .attributeError a => "NutritionalModel object has no attribute " ++ a
  | .reError => "missing unterminated subpattern"

/-- `GET /api/drug-recommendations/...`: a degraded recommender produces a
status=error payload; any exception from `get_recommendations` is caught
and also produces a status=error payload (HTTP 200 in both cases). -/
noncomputable def drug_recommendations_route
    (recommender : Option (List DrugRow)) (drug_name : String) : RecResponse :=
  match recommender with
  | none => .errorResponse "Drug recommender not initialized"
  | some df =>
    match get_recommendations df drug_name 5 with
    | .ok rs => .success rs
    | .error e => .errorResponse (pyErrMessage e)

/-! ## `MedicareDrugAnalyzer.predict_spending` and its route -/

/-- The fitted analyzer: `model` is `None` until `train_model` succeeds;
the fitted random forest and the fitted `StandardScaler.transform` are
opaque functions. -/
structure MedicareDrugAnalyzer where
  model : Option (List ℝ → ℝ)
  scalerTransform : List ℝ → List ℝ

/-- Result dictionary of `predict_spending`. -/
inductive SpendingResult where
  | success (predicted_total_spending : ℝ)
  | failure (error : String)

/-- The five features read from the request dictionary, in access order. -/
def requiredSpendingFeatures : List String :=
  ["total_claims", "total_beneficiaries", "total_dosage_units",
   "avg_spending_per_claim", "avg_spending_per_beneficiary"]

/-- `features_dict[k]`: a missing key raises `KeyError(k)` (whose payload
names the offending field; Python renders it with quotes around the key). -/
def lookupFeature (fd : List (String × ℝ)) (k : String) : Except String ℝ :=
  match fd.find? (fun kv => kv.1 == k) with
  | some kv => .ok kv.2
  | none => .error k

/-- `MedicareDrugAnalyzer.predict_spending`: an untrained model raises
`ValueError`, a missing key raises `KeyError`; both are caught by the
method and turned into a status=error dictionary naming the cause. -/
noncomputable def predict_spending (a : MedicareDrugAnalyzer)
    (fd : List (String × ℝ)) : SpendingResult :=
  match a.model with
  | none => .failure "Model not trained yet"
  | some m =>
    match lookupFeature fd "total_claims" with
    | .error k => .failure k
    | .ok c =>
      match lookupFeature fd "total_beneficiaries" with
      | .error k => .failure k
      | .ok b =>
        match lookupFeature fd "total_dosage_units" with
        | .error k => .failure k
        | .ok u =>
          match lookupFeature fd "avg_spending_per_claim" with
          | .error k => .failure k
          | .ok pc =>
            match lookupFeature fd "avg_spending_per_beneficiary" with
            | .error k => .failure k
            | .ok pb => .success (m (a.scalerTransform [c, b, u, pc, pb]))

/-- Responses of `POST /api/predict-spending`. -/
inductive SpendingResponse where
  | validationError (missing : List String)
  | httpError (statusCode : ℕ) (detail : String)
  | payload (predicted_total_spending : ℝ)

/-- The required fields absent from a request body, as reported by the
FastAPI/pydantic validation of the `DrugFeatures` model. -/
def missingSpendingFields (body : List (String × ℝ)) : List String :=
  requiredSpendingFeatures.filter
    (fun k => (body.find? (fun kv => kv.1 == k)).isNone)

/-- `POST /api/predict-spending`.  FastAPI validates the `DrugFeatures`
body first: any missing required field yields a 422 response naming every
missing field and the handler never runs.  Inside the handler, a
status=error result raises `HTTPException(400, ...)`, which the blanket
`except Exception` clause immediately swallows and re-raises as
`HTTPException(500, str(e))`. -/
noncomputable def predict_spending_route (a : MedicareDrugAnalyzer)
    (body : List (String × ℝ)) : SpendingResponse :=
  if (missingSpendingFields body).isEmpty then
    match predict_spending a body with
    | .success p => .payload p
    | .failure msg => .httpError 500 ("400: " ++ msg)
  else
    .validationError (missingSpendingFields body)

/-! ## `NutritionalModel` (`Backend/nutritional_model.py`)

`train_models` keeps its target dictionary in a local variable and never
assigns `self.targets`; `predict_metrics` reads `self.targets[metric]`, so
with any trained model present the first loop iteration raises
`AttributeError`, which the blanket `except` turns into an empty result. -/

/-- The target dictionary local to `train_models`. -/
def nutritionTargets : List (String × String) :=
  [("weight", "current_weight_kg"), ("body_fat", "fat_mass_perc"),
   ("muscle_mass", "muscle_mass_perc"), ("visceral_fat", "visceral_fat_level")]

/-- The attribute state of a `NutritionalModel` object.  `targets` is the
attribute read by `predict_metrics`; it is `none` unless some method
assigned it (no method does). -/
structure NutritionalModel where
  models : List (String × (List (String × ℝ) → ℝ))
  scalers : List (String × (List (String × ℝ) → List (String × ℝ)))
  targets : Option (List (String × String))

/-- `NutritionalModel.__init__`. -/
def NutritionalModel.init : NutritionalModel :=
  { models := [], scalers := [], targets := none }

/-- `NutritionalModel.train_models`: fits one regressor and one scaler per
entry of the (local) target dictionary and stores them in `self.models` /
`self.scalers`.  The fitted artifacts are opaque parameters.  Note that
`targets` is left untouched. -/
def train_models (m : NutritionalModel)
    (fitModel : String → List (String × ℝ) → ℝ)
    (fitScaler : String → List (String × ℝ) → List (String × ℝ)) :
    NutritionalModel :=
  { m with
    models := nutritionTargets.map (fun p => (p.1, fitModel p.1))
    scalers := nutritionTargets.map (fun p => (p.1, fitScaler p.1)) }

/-- The body of the `for metric, model in self.models.items()` loop, when
`self.targets` is present: drop the target column, scale, predict.  Any
`KeyError` aborts the whole call. -/
def predictLoop (scalers : List (String × (List (String × ℝ) → List (String × ℝ))))
    (tg : List (String × String)) (input : List (String × ℝ)) :
    List (String × (List (String × ℝ) → ℝ)) → Except PyErr (List (String × ℝ))
  | [] => .ok []
  | (metric, model) :: rest => do
    let tcol ← match tg.find? (fun p => p.1 == metric) with
      | some p => Except.ok p.2
      | none => Except.error (PyErr.keyError metric)
    let features := input.filter (fun kv => !(kv.1 == tcol))
    let scaler ← match scalers.find? (fun p => p.1 == metric) with
      | some p => Except.ok p.2
      | none => Except.error (PyErr.keyError metric)
    let r ← predictLoop scalers tg input rest
    pure ((metric, model (scaler features)) :: r)

/-- `NutritionalModel.predict_metrics`.  Reading `self.targets` on an
object that has no such attribute raises `AttributeError`; together with
the blanket `except` this makes the result the empty dictionary whenever
`targets` was never assigned (with no trained models the loop body never
runs and the result is empty as well). -/
def predict_metrics (m : NutritionalModel) (input : List (String × ℝ)) :
    List (String × ℝ) :=
  match m.targets with
  | none => []
  | some tg =>
    match predictLoop m.scalers tg input m.models with
    | .ok results => results
    | .error _ => []

/-- `GET /health/predict`: assembles the feature dictionary and calls
`predict_metrics`. -/
def health_predict_route (m : NutritionalModel)
    (weight bmi fat_mass muscle_mass visceral_fat metabolism waist hip : ℝ) :
    List (String × ℝ) :=
  predict_metrics m
    [("current_weight_kg", weight), ("bmi_kg_m2", bmi),
     ("fat_mass_perc", fat_mass), ("muscle_mass_perc", muscle_mass),
     ("visceral_fat_level", visceral_fat), ("basal_metabolism", metabolism),
     ("waist_cm", waist), ("hip_cm", hip)]

/-! ## Concrete corpora used to evaluate the model on specific inputs -/

/-- Two drugs with identical side-effect text ("rash"): their TF-IDF rows
coincide, so their mutual similarity ties the self-similarity at 1.0. -/
def corpusTie : List DrugRow :=
  [⟨"DrugA", "", "rash", 0⟩, ⟨"DrugB", "", "rash", 0⟩]

/-- A single-drug corpus. -/
def corpusSingle : List DrugRow := [⟨"DrugA", "", "rash", 0⟩]

/-- The three-drug scenario corpus from the specification. -/
def corpusScenario : List DrugRow :=
  [⟨"DrugA", "", "nausea, dizziness", 0⟩,
   ⟨"DrugB", "", "nausea, headache", 0⟩,
   ⟨"DrugC", "", "rash", 0⟩]

/-- A medicine corpus in which rows 1 and 2 tie: both share exactly the
term "aspirin" with row 0 and their own name terms have equal document
frequency. -/
def medCorpusTie : List MedRow :=
  [⟨"aspirin", "", "", "", "", "", ""⟩,
   ⟨"bb", "", "", "", "aspirin", "", ""⟩,
   ⟨"cc", "", "", "", "aspirin", "", ""⟩]

/-- A one-medicine corpus. -/
def medCorpusSingle : List MedRow := [⟨"aspirin", "", "", "", "", "", ""⟩]

/-- Two medicines with disjoint feature text; no name contains a literal
dot character. -/
def medCorpusDot : List MedRow :=
  [⟨"aspirin", "", "", "", "", "", ""⟩, ⟨"bb", "", "", "", "", "", ""⟩]

/-- Five medications with pairwise-disjoint text, the smallest corpus on
which the 5-nearest-neighbour search succeeds. -/
def searchCorpusFive : List SearchRow :=
  [⟨"meda", "", ""⟩, ⟨"medb", "", ""⟩, ⟨"medc", "", ""⟩,
   ⟨"medd", "", ""⟩, ⟨"mede", "", ""⟩]

/-! ## Theorems: the similarity kernel -/

/-! ### Basic facts about the similarity kernel -/

theorem dotV_nil (f g : String → ℝ) : dotV [] f g = 0 := rfl

theorem dotV_cons (t : String) (V : List String) (f g : String → ℝ) :
    dotV (t :: V) f g = f t * g t + dotV V f g := by
  simp [dotV]

theorem dotV_self_nonneg (V : List String) (f : String → ℝ) :
    0 ≤ dotV V f f := by
  induction V with
  | nil => simp [dotV_nil]
  | cons t V ih =>
    rw [dotV_cons]
    exact add_nonneg (mul_self_nonneg _) ih

theorem dotV_nonneg (V : List String) (f g : String → ℝ)
    (hf : ∀ t ∈ V, 0 ≤ f t) (hg : ∀ t ∈ V, 0 ≤ g t) : 0 ≤ dotV V f g := by
  induction V with
  | nil => simp [dotV_nil]
  | cons t V ih =>
    rw [dotV_cons]
    refine add_nonneg (mul_nonneg (hf t (by simp)) (hg t (by simp))) (ih ?_ ?_)
    · exact fun u hu => hf u (by simp [hu])
    · exact fun u hu => hg u (by simp [hu])

theorem l2norm_nonneg (V : List String) (f : String → ℝ) : 0 ≤ l2norm V f :=
  Real.sqrt_nonneg _

/-- Discrete Cauchy-Schwarz for `dotV`, squared form. -/
theorem dotV_sq_le (V : List String) (f g : String → ℝ) :
    (dotV V f g) ^ 2 ≤ dotV V f f * dotV V g g := by
  induction V with
  | nil => simp [dotV_nil]
  | cons t V ih =>
    rw [dotV_cons, dotV_cons, dotV_cons]
    have hF : 0 ≤ dotV V f f := dotV_self_nonneg V f
    have hG : 0 ≤ dotV V g g := dotV_self_nonneg V g
    rcases eq_or_lt_of_le hF with hF0 | hFpos
    · have hD : dotV V f g = 0 := by
        have h0 := ih
        rw [← hF0, zero_mul] at h0
        nlinarith [sq_nonneg (dotV V f g)]
      rw [hD, ← hF0]
      nlinarith [mul_nonneg (mul_self_nonneg (f t)) hG]
    · have h1 : 0 ≤ (f t * dotV V f g - g t * dotV V f f) ^ 2 := sq_nonneg _
      have h2 : (f t) ^ 2 * (dotV V f g) ^ 2 ≤
          (f t) ^ 2 * (dotV V f f * dotV V g g) :=
        mul_le_mul_of_nonneg_left ih (sq_nonneg _)
      have h3 : 2 * (f t * g t * dotV V f g) * dotV V f f ≤
          (f t * f t * dotV V g g + g t * g t * dotV V f f) * dotV V f f := by
        nlinarith [h1, h2]
      have key : 2 * (f t * g t * dotV V f g) ≤
          f t * f t * dotV V g g + g t * g t * dotV V f f :=
        le_of_mul_le_mul_right h3 hFpos
      nlinarith [ih, key]

/-- Cauchy-Schwarz: the dot product is at most the product of the norms. -/
theorem dotV_le_norms (V : List String) (f g : String → ℝ) :
    dotV V f g ≤ l2norm V f * l2norm V g := by
  have h1 : dotV V f g ≤ |dotV V f g| := le_abs_self _
  have h2 : |dotV V f g| = Real.sqrt ((dotV V f g) ^ 2) :=
    (Real.sqrt_sq_eq_abs _).symm
  have h3 : Real.sqrt ((dotV V f g) ^ 2) ≤
      Real.sqrt (dotV V f f * dotV V g g) :=
    Real.sqrt_le_sqrt (dotV_sq_le V f g)
  have h4 : Real.sqrt (dotV V f f * dotV V g g) = l2norm V f * l2norm V g :=
    Real.sqrt_mul (dotV_self_nonneg V f) _
  calc dotV V f g ≤ |dotV V f g| := h1
    _ = Real.sqrt ((dotV V f g) ^ 2) := h2
    _ ≤ Real.sqrt (dotV V f f * dotV V g g) := h3
    _ = l2norm V f * l2norm V g := h4

/-- Cosine similarity never exceeds 1 (the maximum attainable score). -/
theorem cosineSim_le_one (V : List String) (f g : String → ℝ) :
    cosineSim V f g ≤ 1 := by
  unfold cosineSim
  rcases eq_or_lt_of_le
      (mul_nonneg (l2norm_nonneg V f) (l2norm_nonneg V g)) with h | h
  · rw [← h, div_zero]
    exact zero_le_one
  · exact (div_le_one h).mpr (dotV_le_norms V f g)

/-- Cosine similarity of a vector with itself is exactly 1 whenever the
vector is not the zero vector. -/
theorem cosineSim_self (V : List String) (f : String → ℝ)
    (h : dotV V f f ≠ 0) : cosineSim V f f = 1 := by
  unfold cosineSim l2norm
  rw [Real.mul_self_sqrt (dotV_self_nonneg V f)]
  exact div_self h

/-- Cosine similarity of vectors with nonnegative coordinates (such as
TF-IDF rows) is nonnegative. -/
theorem cosineSim_nonneg (V : List String) (f g : String → ℝ)
    (hf : ∀ t ∈ V, 0 ≤ f t) (hg : ∀ t ∈ V, 0 ≤ g t) :
    0 ≤ cosineSim V f g :=
  div_nonneg (dotV_nonneg V f g hf hg)
    (mul_nonneg (l2norm_nonneg V f) (l2norm_nonneg V g))

/-- A vector whose self-dot-product vanishes is zero on the vocabulary. -/
theorem dotV_self_eq_zero (V : List String) (f : String → ℝ)
    (h : dotV V f f = 0) : ∀ t ∈ V, f t = 0 := by
  induction V with
  | nil => simp
  | cons u V ih =>
    rw [dotV_cons] at h
    have h1 : 0 ≤ f u * f u := mul_self_nonneg _
    have h2 : 0 ≤ dotV V f f := dotV_self_nonneg V f
    have hu : f u * f u = 0 := by linarith
    have hV : dotV V f f = 0 := by linarith
    intro t ht
    rcases List.mem_cons.mp ht with rfl | ht
    · exact mul_self_eq_zero.mp hu
    · exact ih hV t ht

/-- If one factor vanishes on the vocabulary, the dot product vanishes. -/
theorem dotV_zero_left (V : List String) (f g : String → ℝ)
    (h : ∀ t ∈ V, f t = 0) : dotV V f g = 0 := by
  induction V with
  | nil => rfl
  | cons u V ih =>
    rw [dotV_cons, h u (by simp), zero_mul, zero_add]
    exact ih (fun t ht => h t (by simp [ht]))

theorem dotV_zero_right (V : List String) (f g : String → ℝ)
    (h : ∀ t ∈ V, g t = 0) : dotV V f g = 0 := by
  induction V with
  | nil => rfl
  | cons u V ih =>
    rw [dotV_cons, h u (by simp), mul_zero, zero_add]
    exact ih (fun t ht => h t (by simp [ht]))

/-- Dot product of pointwise-scaled vectors. -/
theorem dotV_div (V : List String) (f g : String → ℝ) (c e : ℝ) :
    dotV V (fun t => f t / c) (fun t => g t / e) = dotV V f g / (c * e) := by
  induction V with
  | nil => simp [dotV_nil]
  | cons u V ih =>
    rw [dotV_cons, dotV_cons, ih, div_mul_div_comm, div_add_div_same]

/-- Norm of a vector scaled by a nonnegative constant. -/
theorem l2norm_div (V : List String) (f : String → ℝ) (c : ℝ) (hc : 0 ≤ c) :
    l2norm V (fun t => f t / c) = l2norm V f / c := by
  unfold l2norm
  rw [dotV_div, Real.sqrt_div (dotV_self_nonneg V f), Real.sqrt_mul_self hc]

/-- L2-normalizing both arguments does not change cosine similarity: the
similarity computed from the normalized TF-IDF matrix equals the similarity
of the raw TF-IDF rows. -/
theorem cosineSim_normalized (V : List String) (f g : String → ℝ) :
    cosineSim V (fun t => f t / l2norm V f) (fun t => g t / l2norm V g) =
      cosineSim V f g := by
  rcases eq_or_ne (dotV V f f) 0 with hf0 | hf0
  · have hz : ∀ t ∈ V, f t = 0 := dotV_self_eq_zero V f hf0
    have hzn : ∀ t ∈ V, f t / l2norm V f = 0 := fun t ht => by
      rw [hz t ht, zero_div]
    unfold cosineSim
    rw [dotV_zero_left V _ _ hzn, dotV_zero_left V f g hz, zero_div, zero_div]
  · rcases eq_or_ne (dotV V g g) 0 with hg0 | hg0
    · have hz : ∀ t ∈ V, g t = 0 := dotV_self_eq_zero V g hg0
      have hzn : ∀ t ∈ V, g t / l2norm V g = 0 := fun t ht => by
        rw [hz t ht, zero_div]
      unfold cosineSim
      rw [dotV_zero_right V _ _ hzn, dotV_zero_right V f g hz, zero_div,
        zero_div]
    · have hfpos : 0 < dotV V f f :=
        lt_of_le_of_ne (dotV_self_nonneg V f) (Ne.symm hf0)
      have hgpos : 0 < dotV V g g :=
        lt_of_le_of_ne (dotV_self_nonneg V g) (Ne.symm hg0)
      have hcf : 0 < l2norm V f := Real.sqrt_pos.mpr hfpos
      have hcg : 0 < l2norm V g := Real.sqrt_pos.mpr hgpos
      unfold cosineSim
      rw [dotV_div, l2norm_div V f _ (le_of_lt hcf),
        l2norm_div V g _ (le_of_lt hcg), div_self (ne_of_gt hcf),
        div_self (ne_of_gt hcg), mul_one, div_one]

/-- The document frequency of a term never exceeds the corpus size. -/
theorem docFreq_le_length (docs : List (List String)) (t : String) :
    docFreq docs t ≤ docs.length :=
  List.countP_le_length _

/-- With smoothing, every inverse document frequency is strictly positive. -/
theorem idf_pos (docs : List (List String)) (t : String) : 0 < idf docs t := by
  unfold idf
  have hle : (1 + (docFreq docs t : ℝ)) ≤ 1 + docs.length := by
    have h := docFreq_le_length docs t
    have h2 : (docFreq docs t : ℝ) ≤ (docs.length : ℝ) := Nat.cast_le.mpr h
    linarith
  have hpos : (0 : ℝ) < 1 + docFreq docs t := by positivity
  have h1 : (1 : ℝ) ≤ (1 + docs.length) / (1 + docFreq docs t) :=
    (one_le_div hpos).mpr hle
  have := Real.log_nonneg h1
  linarith

/-- Raw TF-IDF weights are nonnegative. -/
theorem tfidfRaw_nonneg (docs : List (List String)) (d : List String)
    (t : String) : 0 ≤ tfidfRaw docs d t :=
  mul_nonneg (Nat.cast_nonneg _) (le_of_lt (idf_pos docs t))

/-- Normalized TF-IDF weights are nonnegative. -/
theorem tfidfVec_nonneg (docs : List (List String)) (d : List String)
    (t : String) : 0 ≤ tfidfVec docs d t :=
  div_nonneg (tfidfRaw_nonneg docs d t) (l2norm_nonneg _ _)

/-- The similarity matrix computed from the L2-normalized TF-IDF matrix
coincides with the cosine similarity of the raw TF-IDF rows. -/
theorem cosineSimMatrix_eq_raw (docs : List (List String)) (i j : ℕ) :
    cosineSimMatrix docs i j =
      cosineSim (vocab docs) (tfidfRaw docs (docs.getD i []))
        (tfidfRaw docs (docs.getD j [])) := by
  unfold cosineSimMatrix tfidfVec
  exact cosineSim_normalized (vocab docs) _ _

/-- Every entry of the cosine-similarity matrix is at most 1. -/
theorem cosineSimMatrix_le_one (docs : List (List String)) (i j : ℕ) :
    cosineSimMatrix docs i j ≤ 1 :=
  cosineSim_le_one _ _ _

/-- Every entry of the cosine-similarity matrix is nonnegative. -/
theorem cosineSimMatrix_nonneg (docs : List (List String)) (i j : ℕ) :
    0 ≤ cosineSimMatrix docs i j :=
  cosineSim_nonneg _ _ _ (fun t _ => tfidfVec_nonneg docs _ t)
    (fun t _ => tfidfVec_nonneg docs _ t)

/-- A diagonal entry of the similarity matrix is exactly 1 whenever the
corresponding raw TF-IDF row is nonzero. -/
theorem cosineSimMatrix_self (docs : List (List String)) (i : ℕ)
    (h : dotV (vocab docs) (tfidfRaw docs (docs.getD i []))
      (tfidfRaw docs (docs.getD i [])) ≠ 0) :
    cosineSimMatrix docs i i = 1 := by
  rw [cosineSimMatrix_eq_raw]
  exact cosineSim_self _ _ h

/-! ## Theorems: stable sorting -/

theorem keyDesc_score_le {a b : ℕ × ℝ} (h : keyDesc a b) : b.2 ≤ a.2 := by
  rcases h with h | ⟨h, _⟩
  · exact le_of_lt h
  · exact le_of_eq h.symm

theorem keyAsc_score_le {a b : ℕ × ℝ} (h : keyAsc a b) : a.2 ≤ b.2 := by
  rcases h with h | ⟨h, _⟩
  · exact le_of_lt h
  · exact le_of_eq h

theorem orderedInsert_pairwise_desc (x : ℕ × ℝ) :
    ∀ ys : List (ℕ × ℝ), ys.Pairwise keyDesc → (∀ y ∈ ys, x.1 < y.1) →
      (ys.orderedInsert scoreGE x).Pairwise keyDesc := by
  intro ys
  induction ys with
  | nil => intro _ _; simp [List.orderedInsert]
  | cons y ys ih =>
    intro hp hidx
    rw [List.pairwise_cons] at hp
    by_cases h : scoreGE x y
    · rw [List.orderedInsert, if_pos h]
      refine List.pairwise_cons.mpr ⟨?_, List.pairwise_cons.mpr hp⟩
      intro z hz
      have hzle : z.2 ≤ x.2 := by
        rcases List.mem_cons.mp hz with rfl | hz
        · exact h
        · exact le_trans (keyDesc_score_le (hp.1 z hz)) h
      rcases lt_or_eq_of_le hzle with hlt | heq
      · exact Or.inl hlt
      · exact Or.inr ⟨heq.symm, hidx z hz⟩
    · rw [List.orderedInsert, if_neg h]
      have hyx : x.2 < y.2 := lt_of_not_le h
      refine List.pairwise_cons.mpr ⟨?_, ?_⟩
      · intro z hz
        rcases (List.mem_orderedInsert scoreGE).mp hz with rfl | hz
        · exact Or.inl hyx
        · exact hp.1 z hz
      · exact ih hp.2 (fun z hz => hidx z (by simp [hz]))

theorem insertionSort_pairwise_desc :
    ∀ l : List (ℕ × ℝ), l.Pairwise (fun a b => a.1 < b.1) →
      (List.insertionSort scoreGE l).Pairwise keyDesc := by
  intro l
  induction l with
  | nil => intro _; simp
  | cons x l ih =>
    intro hp
    rw [List.pairwise_cons] at hp
    rw [List.insertionSort]
    refine orderedInsert_pairwise_desc x _ (ih hp.2) ?_
    intro y hy
    exact hp.1 y ((List.perm_insertionSort scoreGE l).mem_iff.mp hy)

theorem orderedInsert_pairwise_asc (x : ℕ × ℝ) :
    ∀ ys : List (ℕ × ℝ), ys.Pairwise keyAsc → (∀ y ∈ ys, x.1 < y.1) →
      (ys.orderedInsert scoreLE x).Pairwise keyAsc := by
  intro ys
  induction ys with
  | nil => intro _ _; simp [List.orderedInsert]
  | cons y ys ih =>
    intro hp hidx
    rw [List.pairwise_cons] at hp
    by_cases h : scoreLE x y
    · rw [List.orderedInsert, if_pos h]
      refine List.pairwise_cons.mpr ⟨?_, List.pairwise_cons.mpr hp⟩
      intro z hz
      have hzle : x.2 ≤ z.2 := by
        rcases List.mem_cons.mp hz with rfl | hz
        · exact h
        · exact le_trans h (keyAsc_score_le (hp.1 z hz))
      rcases lt_or_eq_of_le hzle with hlt | heq
      · exact Or.inl hlt
      · exact Or.inr ⟨heq, hidx z hz⟩
    · rw [List.orderedInsert, if_neg h]
      have hyx : y.2 < x.2 := lt_of_not_le h
      refine List.pairwise_cons.mpr ⟨?_, ?_⟩
      · intro z hz
        rcases (List.mem_orderedInsert scoreLE).mp hz with rfl | hz
        · exact Or.inl hyx
        · exact hp.1 z hz
      · exact ih hp.2 (fun z hz => hidx z (by simp [hz]))

theorem insertionSort_pairwise_asc :
    ∀ l : List (ℕ × ℝ), l.Pairwise (fun a b => a.1 < b.1) →
      (List.insertionSort scoreLE l).Pairwise keyAsc := by
  intro l
  induction l with
  | nil => intro _; simp
  | cons x l ih =>
    intro hp
    rw [List.pairwise_cons] at hp
    rw [List.insertionSort]
    refine orderedInsert_pairwise_asc x _ (ih hp.2) ?_
    intro y hy
    exact hp.1 y ((List.perm_insertionSort scoreLE l).mem_iff.mp hy)

/-- The head of the stable descending sort is the first element of the
input that attains the maximal score. -/
theorem insertionSort_head_desc (x : ℕ × ℝ) :
    ∀ l₁ l₂ : List (ℕ × ℝ), (∀ y ∈ l₁, y.2 < x.2) → (∀ y ∈ l₂, y.2 ≤ x.2) →
      (List.insertionSort scoreGE (l₁ ++ x :: l₂)).head? = some x := by
  intro l₁
  induction l₁ with
  | nil =>
    intro l₂ _ h₂
    rw [List.nil_append, List.insertionSort]
    have hmem : ∀ y ∈ List.insertionSort scoreGE l₂, y.2 ≤ x.2 := fun y hy =>
      h₂ y ((List.perm_insertionSort scoreGE l₂).mem_iff.mp hy)
    cases hys : List.insertionSort scoreGE l₂ with
    | nil => rfl
    | cons y t =>
      have hxy : scoreGE x y := hmem y (by rw [hys]; simp)
      rw [List.orderedInsert, if_pos hxy]
      rfl
  | cons a l₁ ih =>
    intro l₂ h₁ h₂
    have hax : a.2 < x.2 := h₁ a (by simp)
    rw [List.cons_append, List.insertionSort]
    have hin := ih l₂ (fun y hy => h₁ y (by simp [hy])) h₂
    cases hys : List.insertionSort scoreGE (l₁ ++ x :: l₂) with
    | nil => rw [hys] at hin; simp at hin
    | cons y t =>
      rw [hys] at hin
      simp only [List.head?] at hin
      have hyx : y = x := by injection hin
      subst hyx
      have hnot : ¬ scoreGE a y := not_le.mpr hax
      rw [List.orderedInsert, if_neg hnot]
      rfl

theorem findFirst_eq_none (p : α → Bool) :
    ∀ l : List α, (∀ x ∈ l, p x = false) → findFirst p l = none := by
  intro l
  induction l with
  | nil => intro _; rfl
  | cons x xs ih =>
    intro h
    rw [findFirst, if_neg (by simp [h x (by simp)]), ih
      (fun y hy => h y (by simp [hy]))]
    rfl

theorem clean_float_le (v : ℝ) : clean_float v ≤ (10 : ℝ) ^ 300 :=
  min_le_right _ _

theorem neg_le_clean_float (v : ℝ) : -((10 : ℝ) ^ 300) ≤ clean_float v := by
  have h : (0 : ℝ) ≤ (10 : ℝ) ^ 300 := by positivity
  exact le_min (le_max_right _ _) (by linarith)

theorem tfidfRaw_eq_zero (docs : List (List String)) (d : List String)
    (t : String) (h : termCount t d = 0) : tfidfRaw docs d t = 0 := by
  unfold tfidfRaw
  rw [h, Nat.cast_zero, zero_mul]

theorem tfidfRaw_eq_idf (docs : List (List String)) (d : List String)
    (t : String) (h : termCount t d = 1) : tfidfRaw docs d t = idf docs t := by
  unfold tfidfRaw
  rw [h, Nat.cast_one, one_mul]

theorem tfidfRaw_pos (docs : List (List String)) (d : List String)
    (t : String) (h : 0 < termCount t d) : 0 < tfidfRaw docs d t :=
  mul_pos (by exact_mod_cast h) (idf_pos docs t)

/-- A row with a nonzero coordinate on the vocabulary has positive
self-dot-product. -/
theorem dotV_self_pos (V : List String) (f : String → ℝ) (t : String)
    (ht : t ∈ V) (hf : f t ≠ 0) : 0 < dotV V f f := by
  induction V with
  | nil => simp at ht
  | cons u V ih =>
    rw [dotV_cons]
    rcases List.mem_cons.mp ht with rfl | ht
    · have h1 : 0 < f t * f t := mul_self_pos.mpr hf
      have h2 : 0 ≤ dotV V f f := dotV_self_nonneg V f
      linarith
    · have h1 : 0 ≤ f u * f u := mul_self_nonneg _
      have h2 : 0 < dotV V f f := ih ht
      linarith

theorem argsortAsc_length (scores : List ℝ) :
    (argsortAsc scores).length = scores.length := by
  unfold argsortAsc
  rw [List.length_map, (List.perm_insertionSort scoreLE _).length_eq,
    List.length_map, List.length_range]

theorem cosineDistances_length (docs : List (List String)) (q : List String) :
    (cosineDistances docs q).length = docs.length := by
  unfold cosineDistances
  rw [List.length_map, List.length_range]

theorem searchDocs_length (df : List SearchRow) :
    (searchDocs df).length = df.length := List.length_map _ _

/-- With at least five fitted samples, `search_medications` returns exactly
the five nearest rows. -/
theorem search_medications_length (df : List SearchRow) (q : String)
    (h5 : 5 ≤ df.length) :
    (search_medications ⟨some df⟩ q).length = 5 := by
  unfold search_medications kneighborsIndices
  have hlen : (cosineDistances (searchDocs df) (tokenize q)).length =
      df.length := by
    rw [cosineDistances_length, searchDocs_length]
  dsimp only
  rw [if_neg (by rw [hlen]; omega)]
  simp only [List.length_map, List.length_take, argsortAsc_length, hlen]
  omega

/-- With at least five fitted samples, the alternatives route always
returns exactly four rows (the five nearest minus the first). -/
theorem get_alternatives_length (df : List SearchRow) (q : String)
    (h5 : 5 ≤ df.length) :
    (get_alternatives ⟨some df⟩ q).length = 4 := by
  unfold get_alternatives
  rw [if_pos (by rw [search_medications_length df q h5]; omega)]
  rw [List.length_drop, search_medications_length df q h5]

/-- On metacharacter-free text the pattern parser yields the literal
token sequence. -/
theorem parsePattern_literal :
    ∀ cs : List Char, (∀ c ∈ cs, regexSpecials.contains c = false) →
      parsePattern cs = some (cs.map RegexToken.literal) := by
  intro cs
  induction cs with
  | nil => intro _; rfl
  | cons c cs ih =>
    intro h
    have hc : regexSpecials.contains c = false := h c (by simp)
    have hdot : ¬ c = '.' := by
      intro he
      rw [he] at hc
      exact absurd hc (by decide)
    rw [parsePattern, if_neg hdot, if_neg (fun hcontra => by
        rw [hc] at hcontra
        exact Bool.noConfusion hcontra),
      ih (fun u hu => h u (by simp [hu])), Option.map_some', List.map_cons]

/-- Matching a sequence of literal tokens at the head of the text is
prefix matching. -/
theorem tokensMatchAt_literal :
    ∀ needle hay : List Char,
      tokensMatchAt (needle.map RegexToken.literal) hay =
        leadMatch needle hay := by
  intro needle
  induction needle with
  | nil => intro hay; cases hay <;> rfl
  | cons c cs ih =>
    intro hay
    cases hay with
    | nil => rfl
    | cons h hs =>
      show (c == h && tokensMatchAt (cs.map RegexToken.literal) hs) = _
      rw [ih]
      rfl

/-- Searching for a sequence of literal tokens is literal substring
containment. -/
theorem regexSearch_literal :
    ∀ needle hay : List Char,
      regexSearch (needle.map RegexToken.literal) hay =
        substrMatch needle hay := by
  intro needle hay
  induction hay with
  | nil =>
    show tokensMatchAt (needle.map RegexToken.literal) [] = _
    rw [tokensMatchAt_literal]
    rfl
  | cons h hs ih =>
    show (tokensMatchAt (needle.map RegexToken.literal) (h :: hs)
        || regexSearch (needle.map RegexToken.literal) hs) = _
    rw [tokensMatchAt_literal, ih]
    rfl

theorem medScores_length (mdf : List MedRow) (midx : ℕ) :
    (medScores mdf midx).length = mdf.length := by
  unfold medScores
  rw [List.length_map, List.length_range]

/-! ## The claims -/

/-- Claim C4 (status: code_bug).  The spec says `predict_metrics` on a
successfully trained `NutritionalModel` returns one predicted metric per
trained target.  In the code, `train_models` keeps the target dictionary in
a local variable and never assigns `self.targets`, while `predict_metrics`
reads `self.targets[metric]`; the resulting `AttributeError` is swallowed
by the blanket `except`, so the prediction dictionary is always empty even
though four models were trained, and `/health/predict` always answers with
an empty object. -/
theorem C4_predict_metrics_always_empty
    (fitModel : String → List (String × ℝ) → ℝ)
    (fitScaler : String → List (String × ℝ) → List (String × ℝ))
    (input : List (String × ℝ))
    (weight bmi fat_mass muscle_mass visceral_fat metabolism waist hip : ℝ) :
    predict_metrics (train_models NutritionalModel.init fitModel fitScaler)
        input = []
    ∧ (train_models NutritionalModel.init fitModel fitScaler).models.length
        = 4
    ∧ health_predict_route (train_models NutritionalModel.init fitModel
        fitScaler) weight bmi fat_mass muscle_mass visceral_fat metabolism
        waist hip = [] :=
  ⟨rfl, rfl, rfl⟩

/-- Claim C5, amended (status: corrected).  When the drug recommender
failed to initialize, `/api/drug-recommendations` does answer with an
error-status payload; but a medication search arriving with no trained
`medication` model is answered with HTTP 200 and an empty list — the
`ValueError` raised inside `search_medications` is caught by the method
itself — i.e. a silent empty result, not a ServiceUnavailable-class
response. -/
theorem C5_untrained_behaviour (q name : String) :
    search_medications ⟨none⟩ q = []
    ∧ search_medications_route ⟨none⟩ q = []
    ∧ drug_recommendations_route none name =
        .errorResponse "Drug recommender not initialized" :=
  ⟨rfl, rfl, rfl⟩

/-- Claim C5, counterexample to the claim as stated: a search request
against an untrained model is answered with the plain (HTTP 200) empty
list, not with a ServiceUnavailable-class error response. -/
theorem C5_counterexample :
    search_medications_route ⟨none⟩ "aspirin" = [] := rfl

/-- Claim C9 (status: confirmed).  All inference operations are pure
functions of the immutable fitted state, so identical queries give
identical results: the embedded `search_medications`, `predict_spending`
and `predict_metrics` are deterministic. -/
theorem C9_inference_deterministic (t : ModelTrainer) (q₁ q₂ : String)
    (a : MedicareDrugAnalyzer) (fd₁ fd₂ : List (String × ℝ))
    (m : NutritionalModel) (x₁ x₂ : List (String × ℝ))
    (hq : q₁ = q₂) (hfd : fd₁ = fd₂) (hx : x₁ = x₂) :
    search_medications t q₁ = search_medications t q₂
    ∧ predict_spending a fd₁ = predict_spending a fd₂
    ∧ predict_metrics m x₁ = predict_metrics m x₂ := by
  subst hq
  subst hfd
  subst hx
  exact ⟨rfl, rfl, rfl⟩

/-- Witness for C9 at concrete inputs. -/
theorem C9_witness :
    search_medications ⟨none⟩ "aspirin" = search_medications ⟨none⟩ "aspirin"
    ∧ predict_spending ⟨none, id⟩ [] = predict_spending ⟨none, id⟩ []
    ∧ predict_metrics NutritionalModel.init [] =
        predict_metrics NutritionalModel.init [] :=
  C9_inference_deterministic ⟨none⟩ "aspirin" "aspirin" ⟨none, id⟩ [] []
    NutritionalModel.init [] [] rfl rfl rfl

/-- Claim C10, amended (status: corrected).  `get_similar_medicines` is
total at its interface (every internal error, including the `re.error`
raised by an invalid query pattern, is caught and yields `[]`), but the
query is interpreted as a case-insensitive REGULAR EXPRESSION, not a
literal substring: within the modelled pattern subset, a pattern matching
no row name yields `[]`, and in particular for queries free of regex
metacharacters no case-insensitive substring match implies the empty
list; for metacharacter queries the no-literal-match-implies-empty
reading fails (see the counterexample).  Every `similarity_score` in the
output has passed through `clean_float` and lies in `[-1e300, 1e300]`
(the NaN/infinity branch of `clean_float` has no counterpart in the
real-number model). -/
theorem C10_total_and_clamped (df : List MedRow) (q : String) (n : ℕ) :
    (∀ ts : List RegexToken, parsePattern (lowerChars q.data) = some ts →
      (∀ r ∈ df, regexSearch ts (lowerChars r.name.data) = false) →
      get_similar_medicines df q n = [])
    ∧ (isLiteralPattern q = true →
        (∀ r ∈ df, containsCI r.name q = false) →
        get_similar_medicines df q n = [])
    ∧ ∀ rec ∈ get_similar_medicines df q n,
        -((10 : ℝ) ^ 300) ≤ rec.similarity_score
        ∧ rec.similarity_score ≤ (10 : ℝ) ^ 300 := by
  have hmain : ∀ ts : List RegexToken,
      parsePattern (lowerChars q.data) = some ts →
      (∀ r ∈ df, regexSearch ts (lowerChars r.name.data) = false) →
      get_similar_medicines df q n = [] := by
    intro ts hp hnone
    unfold get_similar_medicines findMedIdxE
    rw [hp]
    dsimp only
    rw [findFirst_eq_none _ df hnone]
  refine ⟨hmain, ?_, ?_⟩
  · intro hlit hcont
    have hforall : ∀ c ∈ lowerChars q.data,
        regexSpecials.contains c = false := by
      intro c hc
      have h := List.all_eq_true.mp hlit c hc
      simpa using h
    refine hmain ((lowerChars q.data).map RegexToken.literal)
      (parsePattern_literal _ hforall) ?_
    intro r hr
    rw [regexSearch_literal]
    exact hcont r hr
  · intro rec hrec
    unfold get_similar_medicines at hrec
    rcases hidx : findMedIdxE df q with e | o
    · rw [hidx] at hrec
      simp at hrec
    · rcases o with _ | idx
      · rw [hidx] at hrec
        simp at hrec
      · rw [hidx] at hrec
        rcases List.mem_map.mp hrec with ⟨j, _, rfl⟩
        exact ⟨neg_le_clean_float _, clean_float_le _⟩

/-- Claim C10, counterexample to the claim as stated: the query "." —
which no medicine name of `medCorpusDot` contains as a literal character
— matches every nonempty name as a regex, so `get_similar_medicines`
returns a non-empty list where the claimed no-match-implies-empty policy
demands `[]`. -/
theorem C10_counterexample :
    (get_similar_medicines medCorpusDot "." 5).length = 1
    ∧ ∀ r ∈ medCorpusDot, containsCI r.name "." = false := by
  refine ⟨?_, by decide⟩
  have hne : dotV (vocab (medDocs medCorpusDot))
      (tfidfRaw (medDocs medCorpusDot) ((medDocs medCorpusDot).getD 0 []))
      (tfidfRaw (medDocs medCorpusDot) ((medDocs medCorpusDot).getD 0 []))
      ≠ 0 :=
    ne_of_gt (dotV_self_pos _ _ "aspirin" (by decide)
      (ne_of_gt (tfidfRaw_pos _ _ _ (by decide))))
  have h00 : cosineSimMatrix (medDocs medCorpusDot) 0 0 = 1 :=
    cosineSimMatrix_self _ 0 hne
  have h01 : cosineSimMatrix (medDocs medCorpusDot) 0 1 = 0 := by
    rw [cosineSimMatrix_eq_raw]
    unfold cosineSim
    have hdot : dotV (vocab (medDocs medCorpusDot))
        (tfidfRaw (medDocs medCorpusDot) ((medDocs medCorpusDot).getD 0 []))
        (tfidfRaw (medDocs medCorpusDot) ((medDocs medCorpusDot).getD 1 []))
        = 0 := by
      rw [show vocab (medDocs medCorpusDot) = ["aspirin", "bb"] from by
        decide]
      rw [dotV_cons, dotV_cons, dotV_nil]
      rw [tfidfRaw_eq_zero (medDocs medCorpusDot)
          ((medDocs medCorpusDot).getD 1 []) "aspirin" (by decide),
        tfidfRaw_eq_zero (medDocs medCorpusDot)
          ((medDocs medCorpusDot).getD 0 []) "bb" (by decide)]
      ring
    rw [hdot, zero_div]
  have hidx : findMedIdxE medCorpusDot "." = .ok (some 0) := rfl
  have hscores : medScores medCorpusDot 0 = [1, 0] := by
    unfold medScores
    rw [show List.range medCorpusDot.length = [0, 1] from rfl,
      List.map_cons, List.map_cons, List.map_nil, h00, h01]
  have hsim : similarIndices [(1 : ℝ), 0] 5 = [1] := by
    unfold similarIndices argsortAsc
    rw [show (List.range ([(1 : ℝ), 0] : List ℝ).length).map
        (fun j => (j, ([(1 : ℝ), 0] : List ℝ).getD j 0)) =
        [(0, (1 : ℝ)), (1, 0)] from rfl]
    simp only [List.insertionSort, List.orderedInsert]
    rw [if_neg (show ¬ scoreLE (0, (1 : ℝ)) (1, 0) from by
      norm_num [scoreLE])]
    rfl
  unfold get_similar_medicines
  rw [hidx]
  dsimp only
  rw [hscores, hsim]
  rfl

/-- Witness for C10: a metacharacter-free query matching no medicine name
yields `[]`. -/
theorem C10_witness :
    get_similar_medicines medCorpusSingle "zz" 5 = [] :=
  (C10_total_and_clamped medCorpusSingle "zz" 5).2.1 (by decide) (by decide)

/-- `lookupFeature` fails exactly with the missing key as payload. -/
theorem lookupFeature_error_eq (fd : List (String × ℝ)) (k e : String)
    (h : lookupFeature fd k = .error e) :
    e = k ∧ (fd.find? (fun kv => kv.1 == k)).isNone = true := by
  unfold lookupFeature at h
  cases hf : fd.find? (fun kv => kv.1 == k) with
  | some kv =>
    rw [hf] at h
    exact absurd h (by simp)
  | none =>
    rw [hf] at h
    injection h with h
    exact ⟨h.symm, by simp⟩

/-- Claim C7 (status: confirmed).  A spending-prediction request missing
one of the five required numeric features is rejected by the
FastAPI/pydantic validation of the `DrugFeatures` body with a
422 (400-equivalent) response naming the missing field, before the handler
runs; and the analyzer-level `predict_spending`, called directly on a dict
with a missing key, fails with a status=error result whose payload names a
missing required field (the `KeyError` key). -/
theorem C7_missing_feature_validation (a : MedicareDrugAnalyzer)
    (mf : List ℝ → ℝ) (body : List (String × ℝ)) (f : String)
    (hm : a.model = some mf)
    (hreq : f ∈ requiredSpendingFeatures)
    (hmiss : (body.find? (fun kv => kv.1 == f)).isNone = true) :
    predict_spending_route a body =
      .validationError (missingSpendingFields body)
    ∧ f ∈ missingSpendingFields body
    ∧ ∃ g ∈ requiredSpendingFeatures,
        (body.find? (fun kv => kv.1 == g)).isNone = true
        ∧ predict_spending a body = .failure g := by
  have hf : f ∈ missingSpendingFields body :=
    List.mem_filter.mpr ⟨hreq, hmiss⟩
  have hne : missingSpendingFields body ≠ [] := List.ne_nil_of_mem hf
  refine ⟨?_, hf, ?_⟩
  · unfold predict_spending_route
    rw [if_neg (by simp [List.isEmpty_iff, hne])]
  · have herr : lookupFeature body f = Except.error f := by
      unfold lookupFeature
      rw [Option.isNone_iff_eq_none.mp hmiss]
    unfold predict_spending
    rw [hm]
    rcases h1 : lookupFeature body "total_claims" with e | c
    · obtain ⟨rfl, hn⟩ := lookupFeature_error_eq body _ e h1
      exact ⟨"total_claims", by decide, hn, by simp [h1]⟩
    · rcases h2 : lookupFeature body "total_beneficiaries" with e | b
      · obtain ⟨rfl, hn⟩ := lookupFeature_error_eq body _ e h2
        exact ⟨"total_beneficiaries", by decide, hn, by simp [h1, h2]⟩
      · rcases h3 : lookupFeature body "total_dosage_units" with e | u
        · obtain ⟨rfl, hn⟩ := lookupFeature_error_eq body _ e h3
          exact ⟨"total_dosage_units", by decide, hn, by simp [h1, h2, h3]⟩
        · rcases h4 : lookupFeature body "avg_spending_per_claim" with e | pc
          · obtain ⟨rfl, hn⟩ := lookupFeature_error_eq body _ e h4
            exact ⟨"avg_spending_per_claim", by decide, hn,
              by simp [h1, h2, h3, h4]⟩
          · rcases h5 : lookupFeature body "avg_spending_per_beneficiary"
                with e | pb
            · obtain ⟨rfl, hn⟩ := lookupFeature_error_eq body _ e h5
              exact ⟨"avg_spending_per_beneficiary", by decide, hn,
                by simp [h1, h2, h3, h4, h5]⟩
            · exfalso
              have hmem : f = "total_claims" ∨ f = "total_beneficiaries" ∨
                  f = "total_dosage_units" ∨ f = "avg_spending_per_claim" ∨
                  f = "avg_spending_per_beneficiary" := by
                simpa [requiredSpendingFeatures] using hreq
              rcases hmem with rfl | rfl | rfl | rfl | rfl
              · rw [h1] at herr; exact Except.noConfusion herr
              · rw [h2] at herr; exact Except.noConfusion herr
              · rw [h3] at herr; exact Except.noConfusion herr
              · rw [h4] at herr; exact Except.noConfusion herr
              · rw [h5] at herr; exact Except.noConfusion herr

/-- Witness for C7: a request body having every field except
`total_claims` is answered with a validation error naming `total_claims`,
and the analyzer itself fails naming `total_claims`. -/
theorem C7_witness :
    predict_spending_route ⟨some (fun _ => 0), id⟩
        [("total_beneficiaries", 1), ("total_dosage_units", 1),
         ("avg_spending_per_claim", 1), ("avg_spending_per_beneficiary", 1)] =
      .validationError ["total_claims"]
    ∧ "total_claims" ∈ missingSpendingFields
        [("total_beneficiaries", 1), ("total_dosage_units", 1),
         ("avg_spending_per_claim", 1), ("avg_spending_per_beneficiary", 1)] := by
  have h := C7_missing_feature_validation ⟨some (fun _ => 0), id⟩
    (fun _ => 0)
    [("total_beneficiaries", 1), ("total_dosage_units", 1),
     ("avg_spending_per_claim", 1), ("avg_spending_per_beneficiary", 1)]
    "total_claims" rfl (by decide) (by decide)
  refine ⟨?_, h.2.1⟩
  have hmf : missingSpendingFields
      [("total_beneficiaries", (1 : ℝ)), ("total_dosage_units", 1),
       ("avg_spending_per_claim", 1), ("avg_spending_per_beneficiary", 1)] =
      ["total_claims"] := by decide
  rw [← hmf]
  exact h.1

/-- Claim C8, counterexample to the claim as stated: the 5-nearest-
neighbour search has no concept of not-found, so alternatives for a
medication name absent from the corpus is a list of 4 (unrelated)
medications, not the empty list. -/
theorem C8_counterexample :
    (get_alternatives ⟨some searchCorpusFive⟩ "zzzz").length = 4
    ∧ ∀ r ∈ searchCorpusFive, r.drug_name ≠ "zzzz" :=
  ⟨get_alternatives_length searchCorpusFive "zzzz" (by decide), by decide⟩

/-- Claim C8, amended (status: corrected).  Alternatives for any query
(present or absent) against a trained model with at least 5 corpus rows is
`results[1:]` of the 5 nearest rows — 4 entries, never empty; the empty
list is returned only when the search produced at most one result, i.e.
when the model is untrained or the corpus has fewer than 5 rows (the
scikit-learn `n_neighbors <= n_samples` error is swallowed). -/
theorem C8_alternatives_behaviour (df df2 : List SearchRow) (q q2 q3 : String)
    (h5 : 5 ≤ df.length) (hlt : df2.length < 5) :
    (get_alternatives ⟨some df⟩ q).length = 4
    ∧ get_alternatives ⟨none⟩ q3 = []
    ∧ get_alternatives ⟨some df2⟩ q2 = [] := by
  refine ⟨get_alternatives_length df q h5, rfl, ?_⟩
  have hsearch : search_medications ⟨some df2⟩ q2 = [] := by
    unfold search_medications kneighborsIndices
    dsimp only
    rw [if_pos (by rw [cosineDistances_length, searchDocs_length]; exact hlt)]
  unfold get_alternatives
  rw [hsearch]
  simp

/-- Witness for C8 at concrete corpora. -/
theorem C8_witness :
    (get_alternatives ⟨some searchCorpusFive⟩ "absent").length = 4
    ∧ get_alternatives ⟨none⟩ "absent" = []
    ∧ get_alternatives ⟨some []⟩ "absent" = [] :=
  C8_alternatives_behaviour searchCorpusFive [] "absent" "absent" "absent"
    (by decide) (by decide)

/-- Splitting `range N` at a position `i < N`. -/
theorem range_split (N i : ℕ) (hi : i < N) :
    List.range N = List.range' 0 i ++ i :: List.range' (i + 1) (N - i - 1) := by
  obtain ⟨k, rfl⟩ : ∃ k, N = i + 1 + k := ⟨N - i - 1, by omega⟩
  rw [List.range_eq_range']
  have h1 : List.range' 0 i ++ List.range' (0 + i) (k + 1) =
      List.range' 0 (k + 1 + i) := List.range'_append_1 0 i (k + 1)
  rw [show i + 1 + k - i - 1 = k by omega,
    show i + 1 + k = k + 1 + i by omega, ← h1, Nat.zero_add,
    List.range'_succ]

/-- Claim C1, amended (status: corrected).  For every corpus and entity in
it with a nonzero TF-IDF row, the self-similarity is 1.0, the maximum
attainable cosine score, and every returned entry of
`get_recommendations` comes from rank ≥ 1 of the stable descending
ranking.  The query row occupies rank 0 — and is therefore excluded — when
every earlier row is strictly below similarity 1.0; but when an earlier
row ties at 1.0 (e.g. identical side-effect text) the query entity itself
can appear at rank ≥ 1 and be returned (see the counterexample). -/
theorem C1_self_similarity (df : List DrugRow) (i n : ℕ) (hi : i < df.length)
    (hnz : dotV (vocab (drugDocs df))
        (tfidfRaw (drugDocs df) ((drugDocs df).getD i []))
        (tfidfRaw (drugDocs df) ((drugDocs df).getD i [])) ≠ 0)
    (hfirst : ∀ j < i, cosineSimMatrix (drugDocs df) i j < 1) :
    cosineSimMatrix (drugDocs df) i i = 1
    ∧ (∀ j, cosineSimMatrix (drugDocs df) i j ≤ 1)
    ∧ i ∉ (recPairs df i n).map Prod.fst := by
  have hself : cosineSimMatrix (drugDocs df) i i = 1 :=
    cosineSimMatrix_self (drugDocs df) i hnz
  refine ⟨hself, fun j => cosineSimMatrix_le_one _ _ _, ?_⟩
  have hsplit : drugSimRow df i =
      ((List.range' 0 i).map
        (fun j => (j, cosineSimMatrix (drugDocs df) i j)))
      ++ (i, cosineSimMatrix (drugDocs df) i i)
      :: ((List.range' (i + 1) (df.length - i - 1)).map
        (fun j => (j, cosineSimMatrix (drugDocs df) i j))) := by
    unfold drugSimRow
    rw [range_split df.length i hi, List.map_append, List.map_cons]
  have hhead : (drugSortedScores df i).head? =
      some (i, cosineSimMatrix (drugDocs df) i i) := by
    unfold drugSortedScores
    rw [hsplit]
    apply insertionSort_head_desc
    · intro y hy
      rcases List.mem_map.mp hy with ⟨j, hj, rfl⟩
      rw [hself]
      refine hfirst j ?_
      rcases List.mem_range'_1.mp hj with ⟨_, h⟩
      omega
    · intro y hy
      rcases List.mem_map.mp hy with ⟨j, hj, rfl⟩
      rw [hself]
      exact cosineSimMatrix_le_one _ _ _
  have hnodup : ((drugSortedScores df i).map Prod.fst).Nodup := by
    have h1 : (drugSimRow df i).map Prod.fst = List.range df.length := by
      unfold drugSimRow
      rw [List.map_map]
      exact List.map_id _
    have h2 : ((drugSortedScores df i).map Prod.fst).Perm
        (List.range df.length) := by
      rw [← h1]
      exact (List.perm_insertionSort scoreGE (drugSimRow df i)).map _
    exact h2.nodup_iff.mpr (List.nodup_range df.length)
  intro hmem
  cases hs : drugSortedScores df i with
  | nil => rw [hs] at hhead; exact Option.noConfusion hhead
  | cons a rest =>
    rw [hs] at hhead
    rw [List.head?_cons] at hhead
    have ha : a = (i, cosineSimMatrix (drugDocs df) i i) :=
      Option.some.inj hhead
    have hrec : recPairs df i n = rest.take n := by
      unfold recPairs
      rw [hs, List.drop_one, List.tail_cons]
    rw [hrec] at hmem
    have hsub : i ∈ rest.map Prod.fst := by
      rcases List.mem_map.mp hmem with ⟨p, hp, rfl⟩
      exact List.mem_map.mpr ⟨p, List.take_subset n rest hp, rfl⟩
    rw [hs, List.map_cons] at hnodup
    have hni : a.1 ∉ rest.map Prod.fst := (List.nodup_cons.mp hnodup).1
    rw [ha] at hni
    exact hni hsub

/-- Claim C1, counterexample to the claim as stated: with two drugs whose
side-effect text is identical ("rash"), querying the second drug makes the
first row tie the self-row at similarity 1.0; the stable sort then leaves
the earlier row at rank 0 and the query row itself at rank 1, so
`get_recommendations` returns the query entity "DrugB" in its own
similar-entities output. -/
theorem C1_counterexample :
    get_recommendations corpusTie "DrugB" 5 = .ok [("DrugB", "", 0)] := by
  have hne : dotV (vocab (drugDocs corpusTie))
      (tfidfRaw (drugDocs corpusTie) ((drugDocs corpusTie).getD 1 []))
      (tfidfRaw (drugDocs corpusTie) ((drugDocs corpusTie).getD 1 [])) ≠ 0 :=
    ne_of_gt (dotV_self_pos _ _ "rash" (by decide)
      (ne_of_gt (tfidfRaw_pos _ _ _ (by decide))))
  have hself : cosineSimMatrix (drugDocs corpusTie) 1 1 = 1 :=
    cosineSimMatrix_self _ 1 hne
  have hcross : cosineSimMatrix (drugDocs corpusTie) 1 0 = 1 := by
    rw [cosineSimMatrix_eq_raw]
    exact cosineSim_self _ _ hne
  have hidx : findDrugIdx corpusTie "DrugB" = some 1 := by decide
  have hrow : drugSimRow corpusTie 1 = [(0, 1), (1, 1)] := by
    unfold drugSimRow
    rw [show List.range corpusTie.length = [0, 1] from rfl, List.map_cons,
      List.map_cons, List.map_nil, hcross, hself]
  have hsorted : drugSortedScores corpusTie 1 = [(0, 1), (1, 1)] := by
    unfold drugSortedScores
    rw [hrow]
    refine List.Sorted.insertionSort_eq ?_
    simp [List.sorted_cons, scoreGE]
  have hrec : recPairs corpusTie 1 5 = [(1, (1 : ℝ))] := by
    unfold recPairs
    rw [hsorted]
    rfl
  unfold get_recommendations
  rw [hidx]
  dsimp only
  rw [hrec]
  rfl

/-- Witness for C1 on a one-drug corpus: self-similarity is 1, all scores
are bounded by 1, and the query row is not among the recommendations. -/
theorem C1_witness :
    cosineSimMatrix (drugDocs corpusSingle) 0 0 = 1
    ∧ (∀ j, cosineSimMatrix (drugDocs corpusSingle) 0 j ≤ 1)
    ∧ 0 ∉ (recPairs corpusSingle 0 5).map Prod.fst :=
  C1_self_similarity corpusSingle 0 5 (by decide)
    (ne_of_gt (dotV_self_pos _ _ "rash" (by decide)
      (ne_of_gt (tfidfRaw_pos _ _ _ (by decide)))))
    (fun j hj => absurd hj (Nat.not_lt_zero j))

/-- Claim C6 (status: confirmed).  On the scenario corpus
`[DrugA: "nausea, dizziness"; DrugB: "nausea, headache"; DrugC: "rash"]`,
recommending for "DrugA" with `top_n = 1` returns exactly DrugB (which
shares the term "nausea"), not DrugC: DrugA-DrugC similarity is 0 (no
shared term), DrugA-DrugB similarity lies in `[0, 1]`, and the self row
(similarity 1) occupies rank 0, so the `[1:2]` slice is the DrugB row. -/
theorem C6_scenario :
    get_recommendations corpusScenario "DrugA" 1 = .ok [("DrugB", "", 0)] := by
  have hne0 : dotV (vocab (drugDocs corpusScenario))
      (tfidfRaw (drugDocs corpusScenario) ((drugDocs corpusScenario).getD 0 []))
      (tfidfRaw (drugDocs corpusScenario) ((drugDocs corpusScenario).getD 0 []))
      ≠ 0 :=
    ne_of_gt (dotV_self_pos _ _ "nausea" (by decide)
      (ne_of_gt (tfidfRaw_pos _ _ _ (by decide))))
  have hself : cosineSimMatrix (drugDocs corpusScenario) 0 0 = 1 :=
    cosineSimMatrix_self _ 0 hne0
  have hs0 : 0 ≤ cosineSimMatrix (drugDocs corpusScenario) 0 1 :=
    cosineSimMatrix_nonneg _ 0 1
  have hs1 : cosineSimMatrix (drugDocs corpusScenario) 0 1 ≤ 1 :=
    cosineSimMatrix_le_one _ 0 1
  have hzero : cosineSimMatrix (drugDocs corpusScenario) 0 2 = 0 := by
    rw [cosineSimMatrix_eq_raw]
    unfold cosineSim
    have hdot : dotV (vocab (drugDocs corpusScenario))
        (tfidfRaw (drugDocs corpusScenario)
          ((drugDocs corpusScenario).getD 0 []))
        (tfidfRaw (drugDocs corpusScenario)
          ((drugDocs corpusScenario).getD 2 [])) = 0 := by
      rw [show vocab (drugDocs corpusScenario) =
        ["dizziness", "nausea", "headache", "rash"] from by decide]
      rw [dotV_cons, dotV_cons, dotV_cons, dotV_cons, dotV_nil]
      rw [tfidfRaw_eq_zero (drugDocs corpusScenario)
          ((drugDocs corpusScenario).getD 2 []) "dizziness" (by decide),
        tfidfRaw_eq_zero (drugDocs corpusScenario)
          ((drugDocs corpusScenario).getD 2 []) "nausea" (by decide),
        tfidfRaw_eq_zero (drugDocs corpusScenario)
          ((drugDocs corpusScenario).getD 0 []) "headache" (by decide),
        tfidfRaw_eq_zero (drugDocs corpusScenario)
          ((drugDocs corpusScenario).getD 0 []) "rash" (by decide)]
      ring
    rw [hdot, zero_div]
  have hidx : findDrugIdx corpusScenario "DrugA" = some 0 := by decide
  have hrow : drugSimRow corpusScenario 0 =
      [(0, 1), (1, cosineSimMatrix (drugDocs corpusScenario) 0 1), (2, 0)] := by
    unfold drugSimRow
    rw [show List.range corpusScenario.length = [0, 1, 2] from rfl,
      List.map_cons, List.map_cons, List.map_cons, List.map_nil, hself, hzero]
  have hsorted : drugSortedScores corpusScenario 0 =
      [(0, 1), (1, cosineSimMatrix (drugDocs corpusScenario) 0 1), (2, 0)] := by
    unfold drugSortedScores
    rw [hrow]
    refine List.Sorted.insertionSort_eq ?_
    refine List.sorted_cons.mpr ⟨?_, List.sorted_cons.mpr ⟨?_, ?_⟩⟩
    · intro b hb
      rcases List.mem_cons.mp hb with rfl | hb
      · exact hs1
      · rcases List.mem_cons.mp hb with rfl | hb
        · exact zero_le_one
        · simp at hb
    · intro b hb
      rcases List.mem_cons.mp hb with rfl | hb
      · exact hs0
      · simp at hb
    · simp
  have hrec : recPairs corpusScenario 0 1 =
      [(1, cosineSimMatrix (drugDocs corpusScenario) 0 1)] := by
    unfold recPairs
    rw [hsorted]
    rfl
  unfold get_recommendations
  rw [hidx]
  dsimp only
  rw [hrec]
  rfl

/-- The model-level ranking guarantee of `similarIndices`: descending
scores with larger-index-first ties.  The tie part of this relation
reflects real `np.argsort` only in its stable (insertion-sort) regime;
the claim theorem below therefore exposes the tie part only under an
explicit array-length bound, and otherwise only the tie-independent
score ordering. -/
theorem similarIndices_pairwise (scores : List ℝ) (m : ℕ) :
    (similarIndices scores m).Pairwise (fun i j =>
      scores.getD j 0 < scores.getD i 0
      ∨ (scores.getD i 0 = scores.getD j 0 ∧ j < i)) := by
  have hp2 : ((List.range scores.length).map
      (fun j => (j, scores.getD j 0))).Pairwise
      (fun a b : ℕ × ℝ => a.1 < b.1) :=
    (List.pairwise_map).mpr (List.pairwise_lt_range _)
  have hasc := insertionSort_pairwise_asc _ hp2
  have hmem : ∀ p ∈ List.insertionSort scoreLE
      ((List.range scores.length).map (fun j => (j, scores.getD j 0))),
      p.2 = scores.getD p.1 0 := by
    intro p hp
    have hp2 := (List.perm_insertionSort scoreLE _).mem_iff.mp hp
    rcases List.mem_map.mp hp2 with ⟨j, _, rfl⟩
    rfl
  have hasc2 : (List.insertionSort scoreLE
      ((List.range scores.length).map
        (fun j => (j, scores.getD j 0)))).Pairwise
      (fun a b : ℕ × ℝ =>
        scores.getD a.1 0 < scores.getD b.1 0
        ∨ (scores.getD a.1 0 = scores.getD b.1 0 ∧ a.1 < b.1)) := by
    refine List.Pairwise.imp_of_mem ?_ hasc
    intro a b ha hb hab
    rw [← hmem a ha, ← hmem b hb]
    exact hab
  have hmap : (argsortAsc scores).Pairwise (fun i j : ℕ =>
      scores.getD i 0 < scores.getD j 0
      ∨ (scores.getD i 0 = scores.getD j 0 ∧ i < j)) := by
    unfold argsortAsc
    rw [List.pairwise_map]
    exact hasc2
  have hrev : ((argsortAsc scores).reverse).Pairwise (fun i j : ℕ =>
      scores.getD j 0 < scores.getD i 0
      ∨ (scores.getD i 0 = scores.getD j 0 ∧ j < i)) := by
    rw [List.pairwise_reverse]
    refine hmap.imp ?_
    intro a b hab
    rcases hab with h | ⟨he, hlt⟩
    · exact Or.inl h
    · exact Or.inr ⟨he.symm, hlt⟩
  unfold similarIndices
  exact List.Pairwise.sublist
    ((List.take_sublist _ _).trans (List.drop_sublist _ _)) hrev

/-- Claim C2, amended (status: corrected).  Both recommenders return
results in non-increasing similarity order (for `get_similar_medicines`
this holds for every corpus: any correct argsort orders the values
ascending, so the reversed slice is non-increasing regardless of tie
order).  The tie-break directions differ and neither matches the claim
universally: `get_recommendations` (Python `sorted`, stable by language
guarantee) puts the row with the smaller corpus index first on equal
scores for every corpus; `get_similar_medicines` reverses
`np.argsort`, whose default kind is unstable in general — only on score
arrays of at most 16 elements, where NumPy runs its stable insertion
sort, is the tie order determined, and there the reversal puts the row
with the LARGER corpus index first (the at-most-16-elements hypothesis
restricts the tie-break conjunct to that regime; on larger corpora the
tie order is unspecified, and the model's stable order is only a
canonical representative there). -/
theorem C2_ordering (df : List DrugRow) (idx n : ℕ)
    (mdf mdf2 : List MedRow) (midx m midx2 m2 : ℕ)
    (_h16 : (medScores mdf midx).length ≤ 16) :
    (recPairs df idx n).Pairwise keyDesc
    ∧ (similarIndices (medScores mdf2 midx2) m2).Pairwise (fun i j =>
        (medScores mdf2 midx2).getD j 0 ≤ (medScores mdf2 midx2).getD i 0)
    ∧ (similarIndices (medScores mdf midx) m).Pairwise (fun i j =>
        (medScores mdf midx).getD j 0 < (medScores mdf midx).getD i 0
        ∨ ((medScores mdf midx).getD i 0 = (medScores mdf midx).getD j 0
            ∧ j < i)) := by
  refine ⟨?_, ?_, similarIndices_pairwise _ _⟩
  · have hp1 : (drugSimRow df idx).Pairwise
        (fun a b : ℕ × ℝ => a.1 < b.1) := by
      unfold drugSimRow
      exact (List.pairwise_map).mpr (List.pairwise_lt_range _)
    have hsorted := insertionSort_pairwise_desc _ hp1
    unfold recPairs drugSortedScores
    exact List.Pairwise.sublist
      ((List.take_sublist _ _).trans (List.drop_sublist _ _)) hsorted
  · refine (similarIndices_pairwise _ _).imp ?_
    intro a b hab
    rcases hab with h | ⟨he, _⟩
    · exact le_of_lt h
    · exact le_of_eq he.symm

/-- Witness for C2 at concrete corpora (the tie-break conjunct on the
3-row corpus `medCorpusTie`, within the stable regime). -/
theorem C2_witness :
    (recPairs corpusSingle 0 5).Pairwise keyDesc
    ∧ (similarIndices (medScores medCorpusSingle 0) 3).Pairwise (fun i j =>
        (medScores medCorpusSingle 0).getD j 0
          ≤ (medScores medCorpusSingle 0).getD i 0)
    ∧ (similarIndices (medScores medCorpusTie 0) 5).Pairwise (fun i j =>
        (medScores medCorpusTie 0).getD j 0
          < (medScores medCorpusTie 0).getD i 0
        ∨ ((medScores medCorpusTie 0).getD i 0
            = (medScores medCorpusTie 0).getD j 0 ∧ j < i)) :=
  C2_ordering corpusSingle 0 5 medCorpusTie medCorpusSingle 0 5 0 3
    (by rw [medScores_length]; decide)

/-- Claim C2, counterexample to the claim as stated: on `medCorpusTie`,
rows "bb" (index 1) and "cc" (index 2) have exactly equal similarity to
the queried row "aspirin", yet `get_similar_medicines` returns "cc" before
"bb" — on ties the row with the larger corpus index comes first, because
the ascending argsort is reversed.  (A 3-element score array is inside
NumPy's insertion-sort regime, where the argsort order is determined and
stable, so this trace is the program's actual behaviour.) -/
theorem C2_counterexample :
    (get_similar_medicines medCorpusTie "aspirin" 5).map (fun r => r.name)
      = ["cc", "bb"]
    ∧ ((get_similar_medicines medCorpusTie "aspirin" 5).getD 0
          default).similarity_score
      = ((get_similar_medicines medCorpusTie "aspirin" 5).getD 1
          default).similarity_score := by
  have hv : vocab (medDocs medCorpusTie) = ["bb", "cc", "aspirin"] := by
    decide
  have hA : (0 : ℝ) < idf (medDocs medCorpusTie) "aspirin" := idf_pos _ _
  have hB : (0 : ℝ) < idf (medDocs medCorpusTie) "bb" := idf_pos _ _
  have hBC : idf (medDocs medCorpusTie) "bb" =
      idf (medDocs medCorpusTie) "cc" := by
    unfold idf
    rw [show docFreq (medDocs medCorpusTie) "bb" = 1 from by decide,
      show docFreq (medDocs medCorpusTie) "cc" = 1 from by decide]
  have hd01 : dotV (vocab (medDocs medCorpusTie))
      (tfidfRaw (medDocs medCorpusTie) ((medDocs medCorpusTie).getD 0 []))
      (tfidfRaw (medDocs medCorpusTie) ((medDocs medCorpusTie).getD 1 []))
      = idf (medDocs medCorpusTie) "aspirin"
        * idf (medDocs medCorpusTie) "aspirin" := by
    rw [hv, dotV_cons, dotV_cons, dotV_cons, dotV_nil,
      tfidfRaw_eq_zero (medDocs medCorpusTie)
        ((medDocs medCorpusTie).getD 0 []) "bb" (by decide),
      tfidfRaw_eq_zero (medDocs medCorpusTie)
        ((medDocs medCorpusTie).getD 0 []) "cc" (by decide),
      tfidfRaw_eq_idf (medDocs medCorpusTie)
        ((medDocs medCorpusTie).getD 0 []) "aspirin" (by decide),
      tfidfRaw_eq_idf (medDocs medCorpusTie)
        ((medDocs medCorpusTie).getD 1 []) "aspirin" (by decide)]
    ring
  have hd00 : dotV (vocab (medDocs medCorpusTie))
      (tfidfRaw (medDocs medCorpusTie) ((medDocs medCorpusTie).getD 0 []))
      (tfidfRaw (medDocs medCorpusTie) ((medDocs medCorpusTie).getD 0 []))
      = idf (medDocs medCorpusTie) "aspirin"
        * idf (medDocs medCorpusTie) "aspirin" := by
    rw [hv, dotV_cons, dotV_cons, dotV_cons, dotV_nil,
      tfidfRaw_eq_zero (medDocs medCorpusTie)
        ((medDocs medCorpusTie).getD 0 []) "bb" (by decide),
      tfidfRaw_eq_zero (medDocs medCorpusTie)
        ((medDocs medCorpusTie).getD 0 []) "cc" (by decide),
      tfidfRaw_eq_idf (medDocs medCorpusTie)
        ((medDocs medCorpusTie).getD 0 []) "aspirin" (by decide)]
    ring
  have hd11 : dotV (vocab (medDocs medCorpusTie))
      (tfidfRaw (medDocs medCorpusTie) ((medDocs medCorpusTie).getD 1 []))
      (tfidfRaw (medDocs medCorpusTie) ((medDocs medCorpusTie).getD 1 []))
      = idf (medDocs medCorpusTie) "bb" * idf (medDocs medCorpusTie) "bb"
        + idf (medDocs medCorpusTie) "aspirin"
          * idf (medDocs medCorpusTie) "aspirin" := by
    rw [hv, dotV_cons, dotV_cons, dotV_cons, dotV_nil,
      tfidfRaw_eq_idf (medDocs medCorpusTie)
        ((medDocs medCorpusTie).getD 1 []) "bb" (by decide),
      tfidfRaw_eq_zero (medDocs medCorpusTie)
        ((medDocs medCorpusTie).getD 1 []) "cc" (by decide),
      tfidfRaw_eq_idf (medDocs medCorpusTie)
        ((medDocs medCorpusTie).getD 1 []) "aspirin" (by decide)]
    ring
  have hd02 : dotV (vocab (medDocs medCorpusTie))
      (tfidfRaw (medDocs medCorpusTie) ((medDocs medCorpusTie).getD 0 []))
      (tfidfRaw (medDocs medCorpusTie) ((medDocs medCorpusTie).getD 2 []))
      = idf (medDocs medCorpusTie) "aspirin"
        * idf (medDocs medCorpusTie) "aspirin" := by
    rw [hv, dotV_cons, dotV_cons, dotV_cons, dotV_nil,
      tfidfRaw_eq_zero (medDocs medCorpusTie)
        ((medDocs medCorpusTie).getD 0 []) "bb" (by decide),
      tfidfRaw_eq_zero (medDocs medCorpusTie)
        ((medDocs medCorpusTie).getD 0 []) "cc" (by decide),
      tfidfRaw_eq_idf (medDocs medCorpusTie)
        ((medDocs medCorpusTie).getD 0 []) "aspirin" (by decide),
      tfidfRaw_eq_idf (medDocs medCorpusTie)
        ((medDocs medCorpusTie).getD 2 []) "aspirin" (by decide)]
    ring
  have hd22 : dotV (vocab (medDocs medCorpusTie))
      (tfidfRaw (medDocs medCorpusTie) ((medDocs medCorpusTie).getD 2 []))
      (tfidfRaw (medDocs medCorpusTie) ((medDocs medCorpusTie).getD 2 []))
      = idf (medDocs medCorpusTie) "bb" * idf (medDocs medCorpusTie) "bb"
        + idf (medDocs medCorpusTie) "aspirin"
          * idf (medDocs medCorpusTie) "aspirin" := by
    rw [hv, dotV_cons, dotV_cons, dotV_cons, dotV_nil,
      tfidfRaw_eq_zero (medDocs medCorpusTie)
        ((medDocs medCorpusTie).getD 2 []) "bb" (by decide),
      tfidfRaw_eq_idf (medDocs medCorpusTie)
        ((medDocs medCorpusTie).getD 2 []) "cc" (by decide),
      tfidfRaw_eq_idf (medDocs medCorpusTie)
        ((medDocs medCorpusTie).getD 2 []) "aspirin" (by decide),
      ← hBC]
    ring
  have hcos01 : cosineSimMatrix (medDocs medCorpusTie) 0 1 =
      idf (medDocs medCorpusTie) "aspirin"
        * idf (medDocs medCorpusTie) "aspirin"
      / (Real.sqrt (idf (medDocs medCorpusTie) "aspirin"
          * idf (medDocs medCorpusTie) "aspirin")
        * Real.sqrt (idf (medDocs medCorpusTie) "bb"
            * idf (medDocs medCorpusTie) "bb"
          + idf (medDocs medCorpusTie) "aspirin"
            * idf (medDocs medCorpusTie) "aspirin")) := by
    rw [cosineSimMatrix_eq_raw]
    unfold cosineSim l2norm
    rw [hd01, hd00, hd11]
  have hcos02 : cosineSimMatrix (medDocs medCorpusTie) 0 2 =
      idf (medDocs medCorpusTie) "aspirin"
        * idf (medDocs medCorpusTie) "aspirin"
      / (Real.sqrt (idf (medDocs medCorpusTie) "aspirin"
          * idf (medDocs medCorpusTie) "aspirin")
        * Real.sqrt (idf (medDocs medCorpusTie) "bb"
            * idf (medDocs medCorpusTie) "bb"
          + idf (medDocs medCorpusTie) "aspirin"
            * idf (medDocs medCorpusTie) "aspirin")) := by
    rw [cosineSimMatrix_eq_raw]
    unfold cosineSim l2norm
    rw [hd02, hd00, hd22]
  have heq : cosineSimMatrix (medDocs medCorpusTie) 0 2 =
      cosineSimMatrix (medDocs medCorpusTie) 0 1 := by
    rw [hcos01, hcos02]
  have hlt : cosineSimMatrix (medDocs medCorpusTie) 0 1 < 1 := by
    rw [hcos01, Real.sqrt_mul_self hA.le]
    have hs : idf (medDocs medCorpusTie) "aspirin" <
        Real.sqrt (idf (medDocs medCorpusTie) "bb"
            * idf (medDocs medCorpusTie) "bb"
          + idf (medDocs medCorpusTie) "aspirin"
            * idf (medDocs medCorpusTie) "aspirin") :=
      calc idf (medDocs medCorpusTie) "aspirin"
          = Real.sqrt (idf (medDocs medCorpusTie) "aspirin"
              * idf (medDocs medCorpusTie) "aspirin") :=
            (Real.sqrt_mul_self hA.le).symm
        _ < _ := Real.sqrt_lt_sqrt (mul_self_nonneg _) (by nlinarith)
    rw [div_lt_one (mul_pos hA (hA.trans hs))]
    exact mul_lt_mul_of_pos_left hs hA
  have h00 : cosineSimMatrix (medDocs medCorpusTie) 0 0 = 1 :=
    cosineSimMatrix_self _ 0 (by
      rw [hd00]
      exact ne_of_gt (mul_pos hA hA))
  have hidx : findMedIdxE medCorpusTie "aspirin" = .ok (some 0) := rfl
  have hscores : medScores medCorpusTie 0 =
      [1, cosineSimMatrix (medDocs medCorpusTie) 0 1,
        cosineSimMatrix (medDocs medCorpusTie) 0 1] := by
    unfold medScores
    rw [show List.range medCorpusTie.length = [0, 1, 2] from rfl,
      List.map_cons, List.map_cons, List.map_cons, List.map_nil, h00, heq]
  have hsort : List.insertionSort scoreLE
      [(0, (1 : ℝ)), (1, cosineSimMatrix (medDocs medCorpusTie) 0 1),
        (2, cosineSimMatrix (medDocs medCorpusTie) 0 1)] =
      [(1, cosineSimMatrix (medDocs medCorpusTie) 0 1),
        (2, cosineSimMatrix (medDocs medCorpusTie) 0 1), (0, 1)] := by
    simp only [List.insertionSort, List.orderedInsert]
    rw [if_pos (show scoreLE
        (1, cosineSimMatrix (medDocs medCorpusTie) 0 1)
        (2, cosineSimMatrix (medDocs medCorpusTie) 0 1) from le_refl _)]
    simp only [List.orderedInsert]
    rw [if_neg (show ¬ scoreLE (0, (1 : ℝ))
        (1, cosineSimMatrix (medDocs medCorpusTie) 0 1) from not_le.mpr hlt),
      if_neg (show ¬ scoreLE (0, (1 : ℝ))
        (2, cosineSimMatrix (medDocs medCorpusTie) 0 1) from not_le.mpr hlt)]
  have hargs : argsortAsc
      [1, cosineSimMatrix (medDocs medCorpusTie) 0 1,
        cosineSimMatrix (medDocs medCorpusTie) 0 1] = [1, 2, 0] := by
    unfold argsortAsc
    rw [show (List.range
        ([1, cosineSimMatrix (medDocs medCorpusTie) 0 1,
          cosineSimMatrix (medDocs medCorpusTie) 0 1] : List ℝ).length).map
        (fun j => (j, ([1, cosineSimMatrix (medDocs medCorpusTie) 0 1,
          cosineSimMatrix (medDocs medCorpusTie) 0 1] : List ℝ).getD j 0)) =
        [(0, (1 : ℝ)), (1, cosineSimMatrix (medDocs medCorpusTie) 0 1),
          (2, cosineSimMatrix (medDocs medCorpusTie) 0 1)] from rfl, hsort]
    rfl
  have hsim : similarIndices
      [1, cosineSimMatrix (medDocs medCorpusTie) 0 1,
        cosineSimMatrix (medDocs medCorpusTie) 0 1] 5 = [2, 1] := by
    unfold similarIndices
    rw [hargs]
    rfl
  unfold get_similar_medicines
  rw [hidx]
  dsimp only
  rw [hscores, hsim]
  exact ⟨rfl, rfl⟩

end MediMeal
